import Mathlib

/-!
Video settings of the Lyra game-settings registry

A shallow embedding of `Source/LyraGame/Settings/LyraGameSettingRegistry_Video.cpp`:
the two edit-condition classes of the file, the inline conditions attached to the
settings, and `InitializeVideoSettings` as the trace of registrations it performs
(`AddSetting`, `AddEditCondition`, `AddEditDependency`), in source order.

Pointers are `Option` values (`none` is `nullptr`); an inline condition that
dereferences a captured pointer returns `none` when that pointer is null.
External queries (platform settings, platform traits, DLSS library, current
values of settings) are fields of `FEnvironment`.
-/

set_option linter.unusedVariables false
set_option linter.constructorNameAsVariable false

namespace Lyra

/-! ## Enumerations named by the source -/

/-- Frame pacing modes of `ELyraFramePacingMode` used by the file. -/
inductive ELyraFramePacingMode where
  | DesktopStyle
  | ConsoleStyle
  | MobileStyle
  deriving DecidableEq, Repr

/-- Polarity of the frame pacing condition (lines 34-38). -/
inductive EFramePacingEditCondition where
  | EnableIf
  | DisableIf
  deriving DecidableEq, Repr

/-- Window modes offered by the `WindowMode` setting (lines 127-129). -/
inductive EWindowMode where
  | Fullscreen
  | WindowedFullscreen
  | Windowed
  deriving DecidableEq, Repr

/-- DLSS modes offered by the `NvidiaDLSSMode` setting (lines 636-642). -/
inductive ENvidiaDLSSMode where
  | Off
  | DLAA
  | Quality
  | Balanced
  | Performance
  | Ultra_Performance
  | Auto
  deriving DecidableEq, Repr

/-- Result of `UDLSSLibrary::QueryDLSSSupport()`. The source names one enumerator;
`Other code` stands for each of the remaining ones. -/
inductive UDLSSSupport where
  | NotSupportedIncompatibleHardware
  | Other (code : Nat)
  deriving DecidableEq, Repr

/-- The settings and collections created by the file, by their `SetDevName`. -/
inductive UGameSetting where
  | VideoCollection
  | DisplayCollection
  | WindowMode
  | Resolution
  | GraphicsCollection
  | ColorBlindMode
  | ColorBlindStrength
  | Brightness
  | SafeZone
  | GraphicsQuality
  | DeviceProfileSuffix
  | FrameRateLimit_Mobile
  | AutoSetQuality
  | GraphicsQualityPresets
  | ResolutionScale
  | GlobalIlluminationQuality
  | Shadows
  | AntiAliasing
  | ViewDistance
  | TextureQuality
  | VisualEffectQuality
  | ReflectionQuality
  | PostProcessingQuality
  | NvidiaDLSS
  | NvidiaDLSSMode
  | NvidiaDLSSSharpness
  | NvidiaDLSSFrameGeneration
  | NvidiaReflex
  | AdvancedGraphics
  | VerticalSync
  | FrameRateLimit_OnBattery
  | FrameRateLimit_InMenu
  | FrameRateLimit_WhenBackgrounded
  | FrameRateLimit_Always
  deriving DecidableEq, Repr, Fintype

/-! ## Edit state -/

/-- Modelled from the spec: the three verdicts of an edit condition, ordered
`Hidden > Disabled > Allowed`. -/
inductive EVerdict where
  | Allowed
  | Disabled
  | Hidden
  deriving DecidableEq, Repr

/-- Modelled from the spec: position of a verdict in the order
`Hidden > Disabled > Allowed`. -/
def EVerdict.rank : EVerdict → Nat
  | .Allowed => 0
  | .Disabled => 1
  | .Hidden => 2

/-- Modelled from the spec: of two verdicts the most restrictive wins. -/
def EVerdict.combine (a b : EVerdict) : EVerdict :=
  if a.rank ≤ b.rank then b else a

/-- Modelled from the spec: the class `FGameSettingEditableState` is declared outside
the sources. The spec gives a verdict `Allowed | Disabled, reason | Hidden, reason`,
the most restrictive verdict winning over several conditions and the reasons being
concatenated; a fresh state is `Allowed` with no reason. -/
structure FGameSettingEditableState where
  Verdict : EVerdict := EVerdict.Allowed
  Reasons : List String := []
  deriving DecidableEq, Repr

/-- Modelled from the spec: `Kill` hides the setting and records the reason. -/
def FGameSettingEditableState.Kill (self : FGameSettingEditableState) (DevReason : String) :
    FGameSettingEditableState :=
  { Verdict := self.Verdict.combine EVerdict.Hidden, Reasons := self.Reasons ++ [DevReason] }

/-- Modelled from the spec: `Disable` disables the setting and records the reason. -/
def FGameSettingEditableState.Disable (self : FGameSettingEditableState) (Reason : String) :
    FGameSettingEditableState :=
  { Verdict := self.Verdict.combine EVerdict.Disabled, Reasons := self.Reasons ++ [Reason] }

/-! ## External state read by the conditions -/

/-- One entry of `UserFacingDeviceProfileOptions` (fields read at lines 313-315). -/
structure FLyraQualityDeviceProfileVariant where
  DisplayName : String
  DeviceProfileSuffix : String
  MinRefreshRate : Int
  deriving DecidableEq, Repr

/-- The fields of `ULyraPlatformSpecificRenderingSettings` read by the file. -/
structure ULyraPlatformSpecificRenderingSettings where
  DefaultDeviceProfileSuffix : String
  UserFacingDeviceProfileOptions : List FLyraQualityDeviceProfileVariant
  bSupportsGranularVideoQualitySettings : Bool
  FramePacingMode : ELyraFramePacingMode
  deriving DecidableEq, Repr

/-- Everything outside the file that its code queries: the platform settings
singleton, the platform trait container, the DLSS library, the benchmark and
display metrics queries, and the current values of the settings. -/
structure FEnvironment where
  /-- The singleton `ULyraPlatformSpecificRenderingSettings::Get()`. -/
  PlatformSettings : ULyraPlatformSpecificRenderingSettings
  /-- The cast `(int32)Mode` of a frame pacing mode; the enumerator values are
  declared outside the sources. -/
  FramePacingModeAsInt32 : ELyraFramePacingMode → Int
  /-- Whether the platform trait container has the gameplay tag of this name. -/
  HasPlatformTrait : String → Bool
  /-- The query `UDLSSLibrary::IsDLSSSupported()`. -/
  IsDLSSSupported : Bool
  /-- The query `UDLSSLibrary::QueryDLSSSupport()`. -/
  QueryDLSSSupport : UDLSSSupport
  /-- The query `GetLocalSettings()->CanRunAutoBenchmark()`. -/
  CanRunAutoBenchmark : Bool
  /-- Whether `Metrics.TitleSafePaddingSize.Size() == 0`. -/
  bTitleSafePaddingSizeIsZero : Bool
  /-- The query `FPlatformMisc::GetMaxRefreshRate()`. -/
  MaxRefreshRate : Int
  /-- What `FWhenPlayingAsPrimaryPlayer::GatherEditState` does to an edit state; the
  class is defined outside the sources. -/
  WhenPlayingAsPrimaryPlayer : FGameSettingEditableState → FGameSettingEditableState
  /-- The call `Setting->GetValue<EWindowMode::Type>()` on a setting. -/
  GetValue_EWindowMode : UGameSetting → EWindowMode
  /-- The call `Setting->GetValue<ENvidiaDLSSMode>()` on a setting. -/
  GetValue_ENvidiaDLSSMode : UGameSetting → ENvidiaDLSSMode

/-! ## Edit conditions -/

/-- The class `FGameSettingEditCondition_FramePacingMode` (lines 41-65); the
constructor's match mode defaults to `EnableIf`. -/
structure FGameSettingEditCondition_FramePacingMode where
  DesiredMode : ELyraFramePacingMode
  MatchMode : EFramePacingEditCondition := EFramePacingEditCondition.EnableIf
  deriving DecidableEq, Repr

/-- The text `FString::Printf(TEXT("Frame pacing mode %d didn't match requirement %d"), ...)`. -/
def FramePacingModeKillReason (ActualMode DesiredMode : Int) : String :=
  "Frame pacing mode " ++ toString ActualMode ++ " didn't match requirement " ++ toString DesiredMode

/-- The method `FGameSettingEditCondition_FramePacingMode::GatherEditState` (lines 50-61). -/
def FGameSettingEditCondition_FramePacingMode.GatherEditState
    (self : FGameSettingEditCondition_FramePacingMode) (E : FEnvironment)
    (InOutEditState : FGameSettingEditableState) : FGameSettingEditableState :=
  let ActualMode := E.PlatformSettings.FramePacingMode
  let bMatches : Bool := decide (ActualMode = self.DesiredMode)
  let bMatchesAreBad : Bool := decide (self.MatchMode = EFramePacingEditCondition.DisableIf)
  if bMatches = bMatchesAreBad then
    InOutEditState.Kill
      (FramePacingModeKillReason (E.FramePacingModeAsInt32 ActualMode)
        (E.FramePacingModeAsInt32 self.DesiredMode))
  else
    InOutEditState

/-- The class `FGameSettingEditCondition_VideoQuality` (lines 70-95). -/
structure FGameSettingEditCondition_VideoQuality where
  DisableString : String
  deriving DecidableEq, Repr

/-- The method `FGameSettingEditCondition_VideoQuality::GatherEditState` (lines 78-84). -/
def FGameSettingEditCondition_VideoQuality.GatherEditState
    (self : FGameSettingEditCondition_VideoQuality) (E : FEnvironment)
    (InOutEditState : FGameSettingEditableState) : FGameSettingEditableState :=
  if !E.PlatformSettings.bSupportsGranularVideoQualitySettings then
    InOutEditState.Kill self.DisableString
  else
    InOutEditState

/-- Modelled from the spec: the class `FWhenPlatformHasTrait` is defined outside the
sources; a condition holds the tag and the reason passed to `KillIfMissing`. -/
structure FWhenPlatformHasTrait where
  VisibilityTag : String
  KillReason : String
  deriving DecidableEq, Repr

/-- Modelled from the spec: `FWhenPlatformHasTrait` is defined outside the sources.
The spec's `TraitRequired` condition is Hidden unless the named platform trait is
present; the reason is the one passed to `KillIfMissing`. -/
def FWhenPlatformHasTrait.GatherEditState (self : FWhenPlatformHasTrait) (E : FEnvironment)
    (InOutEditState : FGameSettingEditableState) : FGameSettingEditableState :=
  if E.HasPlatformTrait self.VisibilityTag then
    InOutEditState
  else
    InOutEditState.Kill self.KillReason

/-- The body of an `FWhenCondition`: a lambda over the local player (not read by any
lambda modelled here) and the edit state; `none` is a null pointer dereference. -/
abbrev FWhenConditionBody : Type :=
  FEnvironment → FGameSettingEditableState → Option FGameSettingEditableState

/-- The edit conditions attached by the file. -/
inductive FGameSettingEditCondition where
  | FramePacingMode (Condition : FGameSettingEditCondition_FramePacingMode)
  | VideoQuality (Condition : FGameSettingEditCondition_VideoQuality)
  | WhenPlatformHasTrait (Condition : FWhenPlatformHasTrait)
  | WhenPlayingAsPrimaryPlayer
  | WhenCondition (InlineEditCondition : FWhenConditionBody)

/-- Virtual dispatch of `GatherEditState`. -/
def FGameSettingEditCondition.GatherEditState (self : FGameSettingEditCondition)
    (E : FEnvironment) (InOutEditState : FGameSettingEditableState) :
    Option FGameSettingEditableState :=
  match self with
  | .FramePacingMode Condition => some (Condition.GatherEditState E InOutEditState)
  | .VideoQuality Condition => some (Condition.GatherEditState E InOutEditState)
  | .WhenPlatformHasTrait Condition => some (Condition.GatherEditState E InOutEditState)
  | .WhenPlayingAsPrimaryPlayer => some (E.WhenPlayingAsPrimaryPlayer InOutEditState)
  | .WhenCondition InlineEditCondition => InlineEditCondition E InOutEditState

/-! ## Inline conditions of `InitializeVideoSettings` -/

/-- Gameplay tag `TAG_Platform_Trait_SupportsWindowedMode` (line 29). -/
def TAG_Platform_Trait_SupportsWindowedMode : String := "Platform.Trait.SupportsWindowedMode"

/-- Gameplay tag `TAG_Platform_Trait_NeedsBrightnessAdjustment` (line 30). -/
def TAG_Platform_Trait_NeedsBrightnessAdjustment : String :=
  "Platform.Trait.NeedsBrightnessAdjustment"

/-- The factory `FWhenPlatformHasTrait::KillIfMissing`, as called by the file. -/
def FWhenPlatformHasTrait.KillIfMissing (InVisibilityTag InKillReason : String) :
    FGameSettingEditCondition :=
  FGameSettingEditCondition.WhenPlatformHasTrait
    { VisibilityTag := InVisibilityTag, KillReason := InKillReason }

/-- Text `ResolutionWindowedFullscreen_Disabled` (line 150). -/
def ResolutionWindowedFullscreen_Disabled : String :=
  "When the Window Mode is set to <strong>Windowed Fullscreen</>, the resolution must match the native desktop resolution."

/-- The lambda attached to `Resolution` (lines 146-152), capturing `WindowModeSetting`. -/
def Resolution_WhenCondition (WindowModeSetting : Option UGameSetting) : FWhenConditionBody :=
  fun E InOutEditState =>
    match WindowModeSetting with
    | none => none
    | some pWindowMode =>
      if E.GetValue_EWindowMode pWindowMode = EWindowMode.WindowedFullscreen then
        some (InOutEditState.Disable ResolutionWindowedFullscreen_Disabled)
      else
        some InOutEditState

/-- The lambda attached to `SafeZone` (lines 239-246). -/
def SafeZone_WhenCondition : FWhenConditionBody :=
  fun E InOutEditState =>
    if E.bTitleSafePaddingSizeIsZero then
      some (InOutEditState.Kill
        "Platform does not have any TitleSafePaddingSize configured in the display metrics.")
    else
      some InOutEditState

/-- The lambda attached to `AutoSetQuality` (lines 365-377); the local player of the
registry is a `ULyraLocalPlayer`, so `CastChecked` succeeds. -/
def AutoSetQuality_WhenCondition : FWhenConditionBody :=
  fun E InOutEditState =>
    let bCanUseDueToMobile : Bool :=
      decide (E.PlatformSettings.FramePacingMode = ELyraFramePacingMode.MobileStyle)
    let bCanBenchmark : Bool := E.CanRunAutoBenchmark
    if !bCanUseDueToMobile && !bCanBenchmark then
      some (InOutEditState.Kill "Auto quality not supported")
    else
      some InOutEditState

/-- The lambda attached to `NvidiaDLSSMode` (lines 648-655). -/
def NvidiaDLSSMode_WhenCondition : FWhenConditionBody :=
  fun E InOutEditState =>
    let bDLSSSupported : Bool := E.IsDLSSSupported
    if !bDLSSSupported then
      some (InOutEditState.Disable "Nvidia DLSS has to be supported.")
    else
      some InOutEditState

/-- The lambda attached to `NvidiaDLSSSharpness` (lines 678-686), capturing
`NvidiaDLSSModeDependency`. -/
def NvidiaDLSSSharpness_WhenCondition (NvidiaDLSSModeDependency : Option UGameSetting) :
    FWhenConditionBody :=
  fun E InOutEditState =>
    match NvidiaDLSSModeDependency with
    | none => none
    | some pDLSSMode =>
      let bDLSSModeOff : Bool := decide (E.GetValue_ENvidiaDLSSMode pDLSSMode = ENvidiaDLSSMode.Off)
      let bDLSSSupported : Bool := E.IsDLSSSupported
      if !bDLSSSupported || bDLSSModeOff then
        some (InOutEditState.Disable "Nvidia DLSS has to be supported and not off.")
      else
        some InOutEditState

/-- The lambda attached to `NvidiaDLSSFrameGeneration` (lines 727-736), capturing
`NvidiaDLSSModeDependency`. -/
def NvidiaDLSSFrameGeneration_WhenCondition (NvidiaDLSSModeDependency : Option UGameSetting) :
    FWhenConditionBody :=
  fun E InOutEditState =>
    match NvidiaDLSSModeDependency with
    | none => none
    | some pDLSSMode =>
      let bDLSSModeOff : Bool := decide (E.GetValue_ENvidiaDLSSMode pDLSSMode = ENvidiaDLSSMode.Off)
      let bDLSSSupported : Bool := E.IsDLSSSupported
      let bDLSSHardwareCompatible : Bool :=
        decide (E.QueryDLSSSupport ≠ UDLSSSupport.NotSupportedIncompatibleHardware)
      if !bDLSSSupported || !bDLSSHardwareCompatible || bDLSSModeOff then
        some (InOutEditState.Disable
          "Nvidia DLSS has to be supported, hardware compatible and not off.")
      else
        some InOutEditState

/-- The lambda attached to `NvidiaReflex` (lines 758-766), capturing
`NvidiaDLSSModeDependency`. -/
def NvidiaReflex_WhenCondition (NvidiaDLSSModeDependency : Option UGameSetting) :
    FWhenConditionBody :=
  fun E InOutEditState =>
    match NvidiaDLSSModeDependency with
    | none => none
    | some pDLSSMode =>
      let bDLSSModeOff : Bool := decide (E.GetValue_ENvidiaDLSSMode pDLSSMode = ENvidiaDLSSMode.Off)
      let bDLSSSupported : Bool := E.IsDLSSSupported
      if !bDLSSSupported || bDLSSModeOff then
        some (InOutEditState.Disable "Nvidia DLSS has to be supported and not off.")
      else
        some InOutEditState

/-- Text `FullscreenNeededForVSync` (line 834). -/
def FullscreenNeededForVSync : String :=
  "This feature only works if \x27Window Mode\x27 is set to \x27Fullscreen\x27."

/-- The lambda attached to `VerticalSync` (lines 831-836), capturing `WindowModeSetting`. -/
def VerticalSync_WhenCondition (WindowModeSetting : Option UGameSetting) : FWhenConditionBody :=
  fun E InOutEditState =>
    match WindowModeSetting with
    | none => none
    | some pWindowMode =>
      if E.GetValue_EWindowMode pWindowMode ≠ EWindowMode.Fullscreen then
        some (InOutEditState.Disable FullscreenNeededForVSync)
      else
        some InOutEditState

/-! ## The settings tree built by `InitializeVideoSettings` -/

/-- What `InitializeVideoSettings` registers, in source order: each
`Collection->AddSetting(Setting)`, each `Setting->AddEditCondition(Condition)` and each
`Setting->AddEditDependency(Dependency)`. In a dependency call the receiver and the
argument are recorded as the pointers they are at the call (`none` is `nullptr`). -/
structure FVideoSettingsTree where
  Root : Option UGameSetting := none
  Settings : List (UGameSetting × UGameSetting) := []
  EditConditions : List (UGameSetting × FGameSettingEditCondition) := []
  EditDependencies : List (Option UGameSetting × Option UGameSetting) := []

/-- The call `Collection->AddSetting(Setting)`. -/
def FVideoSettingsTree.AddSetting (T : FVideoSettingsTree) (Collection Setting : UGameSetting) :
    FVideoSettingsTree :=
  { T with Settings := T.Settings ++ [(Collection, Setting)] }

/-- The call `Setting->AddEditCondition(Condition)`. -/
def FVideoSettingsTree.AddEditCondition (T : FVideoSettingsTree) (Setting : UGameSetting)
    (Condition : FGameSettingEditCondition) : FVideoSettingsTree :=
  { T with EditConditions := T.EditConditions ++ [(Setting, Condition)] }

/-- The call `Setting->AddEditDependency(Dependency)`, recorded as made. -/
def FVideoSettingsTree.AddEditDependency (T : FVideoSettingsTree)
    (Setting Dependency : Option UGameSetting) : FVideoSettingsTree :=
  { T with EditDependencies := T.EditDependencies ++ [(Setting, Dependency)] }

/-- The dynamic options of `DeviceProfileSuffix` (loop of lines 311-317), as pairs
`(DeviceProfileSuffix, DisplayName)` in the order `AddDynamicOption` is called. -/
def DeviceProfileSuffix_DynamicOptions (E : FEnvironment) : List (String × String) :=
  E.PlatformSettings.UserFacingDeviceProfileOptions.foldl
    (fun Options Variant =>
      if E.MaxRefreshRate ≥ Variant.MinRefreshRate then
        Options ++ [(Variant.DeviceProfileSuffix, Variant.DisplayName)]
      else
        Options)
    []

/-- The function `ULyraGameSettingRegistry::InitializeVideoSettings` (lines 99-843): the
registrations it performs, statement by statement. Calls that only set names, texts,
getters, setters, defaults and options are left out, as is `AddPerformanceStatPage`
(line 158), which is defined in another file. -/
def InitializeVideoSettings (E : FEnvironment) : FVideoSettingsTree :=
  let Screen := UGameSetting.VideoCollection
  let T : FVideoSettingsTree := { Root := some Screen }
  let WindowModeSetting : Option UGameSetting := none
  let MobileFPSType : Option UGameSetting := none
  let NvidiaDLSSModeDependency : Option UGameSetting := none
  -- Display (lines 112-161)
  let Display := UGameSetting.DisplayCollection
  let T := T.AddSetting Screen Display
  -- WindowMode (lines 119-136)
  let Setting := UGameSetting.WindowMode
  let T := T.AddEditCondition Setting
    (FWhenPlatformHasTrait.KillIfMissing TAG_Platform_Trait_SupportsWindowedMode
      "Platform does not support window mode")
  let WindowModeSetting := some Setting
  let T := T.AddSetting Display Setting
  -- Resolution (lines 138-155)
  let Setting := UGameSetting.Resolution
  let T := T.AddEditDependency (some Setting) WindowModeSetting
  let T := T.AddEditCondition Setting
    (FWhenPlatformHasTrait.KillIfMissing TAG_Platform_Trait_SupportsWindowedMode
      "Platform does not support window mode")
  let T := T.AddEditCondition Setting
    (FGameSettingEditCondition.WhenCondition (Resolution_WhenCondition WindowModeSetting))
  let T := T.AddSetting Display Setting
  -- Graphics (lines 165-251)
  let Graphics := UGameSetting.GraphicsCollection
  let T := T.AddSetting Screen Graphics
  -- ColorBlindMode (lines 172-189)
  let Setting := UGameSetting.ColorBlindMode
  let T := T.AddEditCondition Setting FGameSettingEditCondition.WhenPlayingAsPrimaryPlayer
  let T := T.AddSetting Graphics Setting
  -- ColorBlindStrength (lines 191-208)
  let Setting := UGameSetting.ColorBlindStrength
  let T := T.AddEditCondition Setting FGameSettingEditCondition.WhenPlayingAsPrimaryPlayer
  let T := T.AddSetting Graphics Setting
  -- Brightness (lines 210-228)
  let Setting := UGameSetting.Brightness
  let T := T.AddEditCondition Setting FGameSettingEditCondition.WhenPlayingAsPrimaryPlayer
  let T := T.AddEditCondition Setting
    (FWhenPlatformHasTrait.KillIfMissing TAG_Platform_Trait_NeedsBrightnessAdjustment
      "Platform does not require brightness adjustment.")
  let T := T.AddSetting Graphics Setting
  -- SafeZone (lines 230-249)
  let Setting := UGameSetting.SafeZone
  let T := T.AddEditCondition Setting FGameSettingEditCondition.WhenPlayingAsPrimaryPlayer
  let T := T.AddEditCondition Setting
    (FGameSettingEditCondition.WhenCondition SafeZone_WhenCondition)
  let T := T.AddSetting Graphics Setting
  -- Graphics Quality (lines 289-615)
  let GraphicsQuality := UGameSetting.GraphicsQuality
  let T := T.AddSetting Screen GraphicsQuality
  let AutoSetQuality : Option UGameSetting := none
  let GraphicsQualityPresets : Option UGameSetting := none
  -- DeviceProfileSuffix (lines 299-323)
  let Setting := UGameSetting.DeviceProfileSuffix
  let DynamicOptions := DeviceProfileSuffix_DynamicOptions E
  let T := if DynamicOptions.length > 1 then T.AddSetting GraphicsQuality Setting else T
  -- FrameRateLimit_Mobile (lines 326-338)
  let Setting := UGameSetting.FrameRateLimit_Mobile
  let MobileFPSType := some Setting
  let T := T.AddEditCondition Setting
    (FGameSettingEditCondition.FramePacingMode { DesiredMode := ELyraFramePacingMode.MobileStyle })
  let T := T.AddSetting GraphicsQuality Setting
  -- AutoSetQuality (lines 341-387)
  let Setting := UGameSetting.AutoSetQuality
  let T := T.AddEditCondition Setting
    (FGameSettingEditCondition.WhenCondition AutoSetQuality_WhenCondition)
  let T := if MobileFPSType ≠ none then T.AddEditDependency MobileFPSType (some Setting) else T
  let T := T.AddSetting GraphicsQuality Setting
  let AutoSetQuality := some Setting
  -- GraphicsQualityPresets (lines 389-408)
  let Setting := UGameSetting.GraphicsQualityPresets
  let T := T.AddEditDependency (some Setting) AutoSetQuality
  let T := T.AddEditCondition Setting
    (FGameSettingEditCondition.FramePacingMode
      { DesiredMode := ELyraFramePacingMode.ConsoleStyle,
        MatchMode := EFramePacingEditCondition.DisableIf })
  let T :=
    if MobileFPSType ≠ none then
      (T.AddEditDependency (some Setting) MobileFPSType).AddEditDependency MobileFPSType
        (some Setting)
    else T
  let T := T.AddSetting GraphicsQuality Setting
  let GraphicsQualityPresets := some Setting
  -- ResolutionScale (lines 410-428)
  let Setting := UGameSetting.ResolutionScale
  let T := T.AddEditDependency (some Setting) AutoSetQuality
  let T := T.AddEditDependency (some Setting) GraphicsQualityPresets
  let T := T.AddEditCondition Setting
    (FGameSettingEditCondition.VideoQuality { DisableString := "Platform does not support 3D Resolution" })
  let T := T.AddEditDependency GraphicsQualityPresets (some Setting)
  let T := T.AddSetting GraphicsQuality Setting
  -- GlobalIlluminationQuality (lines 430-451)
  let Setting := UGameSetting.GlobalIlluminationQuality
  let T := T.AddEditDependency (some Setting) AutoSetQuality
  let T := T.AddEditDependency (some Setting) GraphicsQualityPresets
  let T := T.AddEditCondition Setting
    (FGameSettingEditCondition.VideoQuality { DisableString := "Platform does not support GlobalIlluminationQuality" })
  let T := T.AddEditDependency GraphicsQualityPresets (some Setting)
  let T := T.AddSetting GraphicsQuality Setting
  -- Shadows (lines 453-474)
  let Setting := UGameSetting.Shadows
  let T := T.AddEditDependency (some Setting) AutoSetQuality
  let T := T.AddEditDependency (some Setting) GraphicsQualityPresets
  let T := T.AddEditCondition Setting
    (FGameSettingEditCondition.VideoQuality { DisableString := "Platform does not support Shadows" })
  let T := T.AddEditDependency GraphicsQualityPresets (some Setting)
  let T := T.AddSetting GraphicsQuality Setting
  -- AntiAliasing (lines 476-497)
  let Setting := UGameSetting.AntiAliasing
  let T := T.AddEditDependency (some Setting) AutoSetQuality
  let T := T.AddEditDependency (some Setting) GraphicsQualityPresets
  let T := T.AddEditCondition Setting
    (FGameSettingEditCondition.VideoQuality { DisableString := "Platform does not support Anti-Aliasing" })
  let T := T.AddEditDependency GraphicsQualityPresets (some Setting)
  let T := T.AddSetting GraphicsQuality Setting
  -- ViewDistance (lines 499-520)
  let Setting := UGameSetting.ViewDistance
  let T := T.AddEditDependency (some Setting) AutoSetQuality
  let T := T.AddEditDependency (some Setting) GraphicsQualityPresets
  let T := T.AddEditCondition Setting
    (FGameSettingEditCondition.VideoQuality { DisableString := "Platform does not support View Distance" })
  let T := T.AddEditDependency GraphicsQualityPresets (some Setting)
  let T := T.AddSetting GraphicsQuality Setting
  -- TextureQuality (lines 522-544)
  let Setting := UGameSetting.TextureQuality
  let T := T.AddEditDependency (some Setting) AutoSetQuality
  let T := T.AddEditDependency (some Setting) GraphicsQualityPresets
  let T := T.AddEditCondition Setting
    (FGameSettingEditCondition.VideoQuality { DisableString := "Platform does not support Texture quality" })
  let T := T.AddEditDependency GraphicsQualityPresets (some Setting)
  let T := T.AddSetting GraphicsQuality Setting
  -- VisualEffectQuality (lines 546-567)
  let Setting := UGameSetting.VisualEffectQuality
  let T := T.AddEditDependency (some Setting) AutoSetQuality
  let T := T.AddEditDependency (some Setting) GraphicsQualityPresets
  let T := T.AddEditCondition Setting
    (FGameSettingEditCondition.VideoQuality { DisableString := "Platform does not support VisualEffectQuality" })
  let T := T.AddEditDependency GraphicsQualityPresets (some Setting)
  let T := T.AddSetting GraphicsQuality Setting
  -- ReflectionQuality (lines 569-590)
  let Setting := UGameSetting.ReflectionQuality
  let T := T.AddEditDependency (some Setting) AutoSetQuality
  let T := T.AddEditDependency (some Setting) GraphicsQualityPresets
  let T := T.AddEditCondition Setting
    (FGameSettingEditCondition.VideoQuality { DisableString := "Platform does not support ReflectionQuality" })
  let T := T.AddEditDependency GraphicsQualityPresets (some Setting)
  let T := T.AddSetting GraphicsQuality Setting
  -- PostProcessingQuality (lines 592-613)
  let Setting := UGameSetting.PostProcessingQuality
  let T := T.AddEditDependency (some Setting) AutoSetQuality
  let T := T.AddEditDependency (some Setting) GraphicsQualityPresets
  let T := T.AddEditCondition Setting
    (FGameSettingEditCondition.VideoQuality { DisableString := "Platform does not support PostProcessingQuality" })
  let T := T.AddEditDependency GraphicsQualityPresets (some Setting)
  let T := T.AddSetting GraphicsQuality Setting
  -- NVIDIA (lines 620-807)
  let NvidiaGraphics := UGameSetting.NvidiaDLSS
  let T := T.AddSetting Screen NvidiaGraphics
  -- NvidiaDLSSMode (lines 627-658)
  let Setting := UGameSetting.NvidiaDLSSMode
  let T := T.AddEditCondition Setting FGameSettingEditCondition.WhenPlayingAsPrimaryPlayer
  let NvidiaDLSSModeDependency := some Setting
  let T := T.AddEditCondition Setting
    (FGameSettingEditCondition.WhenCondition NvidiaDLSSMode_WhenCondition)
  let T := T.AddSetting NvidiaGraphics Setting
  -- NvidiaDLSSSharpness (lines 661-711)
  let Setting := UGameSetting.NvidiaDLSSSharpness
  let T := T.AddEditCondition Setting FGameSettingEditCondition.WhenPlayingAsPrimaryPlayer
  let T := T.AddEditDependency (some Setting) NvidiaDLSSModeDependency
  let T := T.AddEditCondition Setting
    (FGameSettingEditCondition.WhenCondition
      (NvidiaDLSSSharpness_WhenCondition NvidiaDLSSModeDependency))
  let T := T.AddSetting NvidiaGraphics Setting
  -- NvidiaDLSSFrameGeneration (lines 714-739)
  let Setting := UGameSetting.NvidiaDLSSFrameGeneration
  let T := T.AddEditCondition Setting FGameSettingEditCondition.WhenPlayingAsPrimaryPlayer
  let T := T.AddEditDependency (some Setting) NvidiaDLSSModeDependency
  let T := T.AddEditCondition Setting
    (FGameSettingEditCondition.WhenCondition
      (NvidiaDLSSFrameGeneration_WhenCondition NvidiaDLSSModeDependency))
  let T := T.AddSetting NvidiaGraphics Setting
  -- NvidiaReflex (lines 742-769)
  let Setting := UGameSetting.NvidiaReflex
  let T := T.AddEditCondition Setting FGameSettingEditCondition.WhenPlayingAsPrimaryPlayer
  let T := T.AddEditDependency (some Setting) NvidiaDLSSModeDependency
  let T := T.AddEditCondition Setting
    (FGameSettingEditCondition.WhenCondition
      (NvidiaReflex_WhenCondition NvidiaDLSSModeDependency))
  let T := T.AddSetting NvidiaGraphics Setting
  -- Advanced Graphics (lines 811-840)
  let AdvancedGraphics := UGameSetting.AdvancedGraphics
  let T := T.AddSetting Screen AdvancedGraphics
  -- VerticalSync (lines 818-839)
  let Setting := UGameSetting.VerticalSync
  let T := T.AddEditCondition Setting
    (FGameSettingEditCondition.FramePacingMode { DesiredMode := ELyraFramePacingMode.DesktopStyle })
  let T := T.AddEditDependency (some Setting) WindowModeSetting
  let T := T.AddEditCondition Setting
    (FGameSettingEditCondition.WhenCondition (VerticalSync_WhenCondition WindowModeSetting))
  let T := T.AddSetting AdvancedGraphics Setting
  T

/-! ## Evaluation and the dependency relation -/

/-- The edit conditions attached to a setting, in the order they were added. -/
def FVideoSettingsTree.EditConditionsOf (T : FVideoSettingsTree) (Setting : UGameSetting) :
    List FGameSettingEditCondition :=
  T.EditConditions.filterMap (fun p => if p.1 = Setting then some p.2 else none)

/-- Modelled from the spec: the framework's evaluation of a setting is outside the
sources. The spec's `Evaluate` runs every attached edit condition on a fresh edit
state, the most restrictive verdict winning and the reasons accumulating. -/
def FVideoSettingsTree.Evaluate (T : FVideoSettingsTree) (E : FEnvironment)
    (Setting : UGameSetting) : Option FGameSettingEditableState :=
  (T.EditConditionsOf Setting).foldlM (fun EditState Condition => Condition.GatherEditState E EditState)
    ({} : FGameSettingEditableState)

/-- The edit-dependency relation: an edge `A → B` for every call `A->AddEditDependency(B)`
made with both pointers non-null. -/
def FVideoSettingsTree.EditDependsOn (T : FVideoSettingsTree) (A B : UGameSetting) : Prop :=
  (some A, some B) ∈ T.EditDependencies

instance (T : FVideoSettingsTree) (A B : UGameSetting) : Decidable (T.EditDependsOn A B) := by
  unfold FVideoSettingsTree.EditDependsOn; infer_instance

/-- An environment used to evaluate the definitions on concrete inputs: a desktop
platform with windowed mode, granular quality settings and DLSS. -/
def DesktopEnvironment : FEnvironment where
  PlatformSettings :=
    { DefaultDeviceProfileSuffix := ""
      UserFacingDeviceProfileOptions := []
      bSupportsGranularVideoQualitySettings := true
      FramePacingMode := ELyraFramePacingMode.DesktopStyle }
  FramePacingModeAsInt32 := fun Mode =>
    match Mode with
    | .DesktopStyle => 0
    | .ConsoleStyle => 1
    | .MobileStyle => 2
  HasPlatformTrait := fun Tag => Tag = TAG_Platform_Trait_SupportsWindowedMode
  IsDLSSSupported := true
  QueryDLSSSupport := UDLSSSupport.Other 0
  CanRunAutoBenchmark := true
  bTitleSafePaddingSizeIsZero := true
  MaxRefreshRate := 60
  WhenPlayingAsPrimaryPlayer := fun EditState => EditState
  GetValue_EWindowMode := fun _ => EWindowMode.Fullscreen
  GetValue_ENvidiaDLSSMode := fun _ => ENvidiaDLSSMode.Off

/-- A console-like environment: no platform trait at all, console frame pacing, no
granular quality settings, no DLSS, and `WindowedFullscreen` as the value of every
window-mode query. -/
def ConsoleEnvironment : FEnvironment where
  PlatformSettings :=
    { DefaultDeviceProfileSuffix := ""
      UserFacingDeviceProfileOptions := []
      bSupportsGranularVideoQualitySettings := false
      FramePacingMode := ELyraFramePacingMode.ConsoleStyle }
  FramePacingModeAsInt32 := fun Mode =>
    match Mode with
    | .DesktopStyle => 0
    | .ConsoleStyle => 1
    | .MobileStyle => 2
  HasPlatformTrait := fun _ => false
  IsDLSSSupported := false
  QueryDLSSSupport := UDLSSSupport.NotSupportedIncompatibleHardware
  CanRunAutoBenchmark := false
  bTitleSafePaddingSizeIsZero := false
  MaxRefreshRate := 60
  WhenPlayingAsPrimaryPlayer := fun EditState => EditState
  GetValue_EWindowMode := fun _ => EWindowMode.WindowedFullscreen
  GetValue_ENvidiaDLSSMode := fun _ => ENvidiaDLSSMode.Off

/-- The nine granular quality settings (lines 410-613), in source order. -/
def GranularQualitySettings : List UGameSetting :=
  [UGameSetting.ResolutionScale, UGameSetting.GlobalIlluminationQuality, UGameSetting.Shadows,
   UGameSetting.AntiAliasing, UGameSetting.ViewDistance, UGameSetting.TextureQuality,
   UGameSetting.VisualEffectQuality, UGameSetting.ReflectionQuality,
   UGameSetting.PostProcessingQuality]

/-- The settings that declared an edit dependency on `Changed`, in call order. -/
def FVideoSettingsTree.Dependents (T : FVideoSettingsTree) (Changed : UGameSetting) :
    List UGameSetting :=
  T.EditDependencies.filterMap (fun p => if p.2 = some Changed then p.1 else none)

/-- Modelled from the spec: rounds of the dirty marking of `MarkDirty`. Each round adds
the dependents, not yet dirty, of the dirty settings, and the marking stops at the first
round that adds nothing. -/
def FVideoSettingsTree.MarkDirtyRounds (T : FVideoSettingsTree) :
    Nat → List UGameSetting → List UGameSetting
  | 0, Dirty => Dirty
  | Rounds + 1, Dirty =>
    let Added := ((Dirty.map T.Dependents).flatten.filter (fun S => decide (S ∉ Dirty))).dedup
    if Added = [] then Dirty else T.MarkDirtyRounds Rounds (Dirty ++ Added)

/-- Modelled from the spec: the framework's change notification is outside the sources.
The spec's `SetValue` marks the changed node and every transitive dependent dirty. A
round that adds a setting adds one not yet dirty, so 34 rounds, one per setting, reach
them all. -/
def FVideoSettingsTree.MarkDirty (T : FVideoSettingsTree) (Changed : UGameSetting) :
    List UGameSetting :=
  T.MarkDirtyRounds 34 [Changed]

/-- The edit-dependency relation without the edges that leave `GraphicsQualityPresets`. -/
def FVideoSettingsTree.EditDependsOnOutsidePresets (T : FVideoSettingsTree)
    (A B : UGameSetting) : Prop :=
  T.EditDependsOn A B ∧ A ≠ UGameSetting.GraphicsQualityPresets

instance (T : FVideoSettingsTree) (A B : UGameSetting) :
    Decidable (T.EditDependsOnOutsidePresets A B) := by
  unfold FVideoSettingsTree.EditDependsOnOutsidePresets; infer_instance

/-- Whether a setting is the target of an edit dependency and the source of none, the
edges that leave `GraphicsQualityPresets` set aside. -/
def IsDependencySink : UGameSetting → Bool
  | .WindowMode => true
  | .AutoSetQuality => true
  | .GraphicsQualityPresets => true
  | .NvidiaDLSSMode => true
  | _ => false

/-! ## Side effects: the local settings object -/

/-- The calls the file makes on the local settings object `ULyraSettingsLocal` that are
not queries (lines 90, 354 and 361). -/
inductive ELocalSettingsCall where
  | ApplyScalabilitySettings
  | ResetToMobileDeviceDefaults
  | RunAutoBenchmark (bImmediatelySaveState : Bool)
  deriving DecidableEq, Repr

/-- The state the code of the file runs in: what its queries return, and the calls made
so far on the local settings object, oldest first. A write to the value of a setting
would change `Environment`. -/
structure FWorld where
  Environment : FEnvironment
  LocalSettingsCalls : List ELocalSettingsCall := []

/-- The reason passed to `SettingChanged`; the enumerators of `EGameSettingChangeReason`
are declared outside the sources, `Reason code` stands for each of them. -/
inductive EGameSettingChangeReason where
  | Reason (code : Nat)
  deriving DecidableEq, Repr

/-- The method `FGameSettingEditCondition_VideoQuality::SettingChanged` (lines 86-91): it
calls `ApplyScalabilitySettings` on the local settings, whatever the setting and the
reason are. The local player of the registry is a `ULyraLocalPlayer`, so `CastChecked`
succeeds. -/
def FGameSettingEditCondition_VideoQuality.SettingChanged
    (self : FGameSettingEditCondition_VideoQuality) (W : FWorld) (Setting : UGameSetting)
    (Reason : EGameSettingChangeReason) : FWorld :=
  { W with LocalSettingsCalls :=
      W.LocalSettingsCalls ++ [ELocalSettingsCall.ApplyScalabilitySettings] }

/-- The custom action of `AutoSetQuality` (lines 349-363). -/
def AutoSetQuality_CustomAction (W : FWorld) : FWorld :=
  let PlatformSettings := W.Environment.PlatformSettings
  if PlatformSettings.FramePacingMode = ELyraFramePacingMode.MobileStyle then
    { W with LocalSettingsCalls :=
        W.LocalSettingsCalls ++ [ELocalSettingsCall.ResetToMobileDeviceDefaults] }
  else
    let bImmediatelySaveState : Bool := false
    { W with LocalSettingsCalls :=
        W.LocalSettingsCalls ++ [ELocalSettingsCall.RunAutoBenchmark bImmediatelySaveState] }

/-! ## Conditions as steps on the world -/

/-- A `GatherEditState` body as a step on the world: from the world and the edit state
passed in to the world and the edit state it leaves; `none` is a null pointer
dereference. A step may hand back any world. -/
abbrev FEditConditionStep : Type :=
  FWorld → FGameSettingEditableState → Option (FWorld × FGameSettingEditableState)

/-- The query `ULyraPlatformSpecificRenderingSettings::Get()`. -/
def FWorld.PlatformSettings_Get (W : FWorld) : FWorld × ULyraPlatformSpecificRenderingSettings :=
  (W, W.Environment.PlatformSettings)

/-- The query `UDLSSLibrary::IsDLSSSupported()`. -/
def FWorld.IsDLSSSupported (W : FWorld) : FWorld × Bool :=
  (W, W.Environment.IsDLSSSupported)

/-- The query `UDLSSLibrary::QueryDLSSSupport()`. -/
def FWorld.QueryDLSSSupport (W : FWorld) : FWorld × UDLSSSupport :=
  (W, W.Environment.QueryDLSSSupport)

/-- The query `GetLocalSettings()->CanRunAutoBenchmark()`. -/
def FWorld.CanRunAutoBenchmark (W : FWorld) : FWorld × Bool :=
  (W, W.Environment.CanRunAutoBenchmark)

/-- The query `GetCachedDisplayMetrics(Metrics)` followed by
`Metrics.TitleSafePaddingSize.Size() == 0` on the local `Metrics`. -/
def FWorld.TitleSafePaddingSizeIsZero (W : FWorld) : FWorld × Bool :=
  (W, W.Environment.bTitleSafePaddingSizeIsZero)

/-- The query `Setting->GetValue<EWindowMode::Type>()` through a pointer. -/
def FWorld.GetValue_EWindowMode (W : FWorld) (Setting : Option UGameSetting) :
    Option (FWorld × EWindowMode) :=
  match Setting with
  | none => none
  | some pSetting => some (W, W.Environment.GetValue_EWindowMode pSetting)

/-- The query `Setting->GetValue<ENvidiaDLSSMode>()` through a pointer. -/
def FWorld.GetValue_ENvidiaDLSSMode (W : FWorld) (Setting : Option UGameSetting) :
    Option (FWorld × ENvidiaDLSSMode) :=
  match Setting with
  | none => none
  | some pSetting => some (W, W.Environment.GetValue_ENvidiaDLSSMode pSetting)

/-- The method `FGameSettingEditCondition_FramePacingMode::GatherEditState` (lines 50-61),
statement by statement, as a step on the world. -/
def FGameSettingEditCondition_FramePacingMode.GatherEditState_Step
    (self : FGameSettingEditCondition_FramePacingMode) : FEditConditionStep :=
  fun W InOutEditState =>
    let (W, PlatformSettings) := W.PlatformSettings_Get
    let ActualMode := PlatformSettings.FramePacingMode
    let bMatches : Bool := decide (ActualMode = self.DesiredMode)
    let bMatchesAreBad : Bool := decide (self.MatchMode = EFramePacingEditCondition.DisableIf)
    if bMatches = bMatchesAreBad then
      some (W, InOutEditState.Kill
        (FramePacingModeKillReason (W.Environment.FramePacingModeAsInt32 ActualMode)
          (W.Environment.FramePacingModeAsInt32 self.DesiredMode)))
    else
      some (W, InOutEditState)

/-- The method `FGameSettingEditCondition_VideoQuality::GatherEditState` (lines 78-84),
as a step on the world. -/
def FGameSettingEditCondition_VideoQuality.GatherEditState_Step
    (self : FGameSettingEditCondition_VideoQuality) : FEditConditionStep :=
  fun W InOutEditState =>
    let (W, PlatformSettings) := W.PlatformSettings_Get
    if !PlatformSettings.bSupportsGranularVideoQualitySettings then
      some (W, InOutEditState.Kill self.DisableString)
    else
      some (W, InOutEditState)

/-- The lambda of `Resolution` (lines 146-152), as a step on the world. -/
def Resolution_WhenCondition_Step (WindowModeSetting : Option UGameSetting) :
    FEditConditionStep :=
  fun W InOutEditState =>
    match W.GetValue_EWindowMode WindowModeSetting with
    | none => none
    | some (W, Value) =>
      if Value = EWindowMode.WindowedFullscreen then
        some (W, InOutEditState.Disable ResolutionWindowedFullscreen_Disabled)
      else
        some (W, InOutEditState)

/-- The lambda of `SafeZone` (lines 239-246), as a step on the world. -/
def SafeZone_WhenCondition_Step : FEditConditionStep :=
  fun W InOutEditState =>
    let (W, bSizeIsZero) := W.TitleSafePaddingSizeIsZero
    if bSizeIsZero then
      some (W, InOutEditState.Kill
        "Platform does not have any TitleSafePaddingSize configured in the display metrics.")
    else
      some (W, InOutEditState)

/-- The lambda of `AutoSetQuality` (lines 365-377), as a step on the world. -/
def AutoSetQuality_WhenCondition_Step : FEditConditionStep :=
  fun W InOutEditState =>
    let (W, PlatformSettings) := W.PlatformSettings_Get
    let bCanUseDueToMobile : Bool :=
      decide (PlatformSettings.FramePacingMode = ELyraFramePacingMode.MobileStyle)
    let (W, bCanBenchmark) := W.CanRunAutoBenchmark
    if !bCanUseDueToMobile && !bCanBenchmark then
      some (W, InOutEditState.Kill "Auto quality not supported")
    else
      some (W, InOutEditState)

/-- The lambda of `NvidiaDLSSMode` (lines 648-655), as a step on the world. -/
def NvidiaDLSSMode_WhenCondition_Step : FEditConditionStep :=
  fun W InOutEditState =>
    let (W, bDLSSSupported) := W.IsDLSSSupported
    if !bDLSSSupported then
      some (W, InOutEditState.Disable "Nvidia DLSS has to be supported.")
    else
      some (W, InOutEditState)

/-- The lambda of `NvidiaDLSSSharpness` (lines 678-686), as a step on the world. -/
def NvidiaDLSSSharpness_WhenCondition_Step (NvidiaDLSSModeDependency : Option UGameSetting) :
    FEditConditionStep :=
  fun W InOutEditState =>
    match W.GetValue_ENvidiaDLSSMode NvidiaDLSSModeDependency with
    | none => none
    | some (W, Value) =>
      let bDLSSModeOff : Bool := decide (Value = ENvidiaDLSSMode.Off)
      let (W, bDLSSSupported) := W.IsDLSSSupported
      if !bDLSSSupported || bDLSSModeOff then
        some (W, InOutEditState.Disable "Nvidia DLSS has to be supported and not off.")
      else
        some (W, InOutEditState)

/-- The lambda of `NvidiaDLSSFrameGeneration` (lines 727-736), as a step on the world. -/
def NvidiaDLSSFrameGeneration_WhenCondition_Step
    (NvidiaDLSSModeDependency : Option UGameSetting) : FEditConditionStep :=
  fun W InOutEditState =>
    match W.GetValue_ENvidiaDLSSMode NvidiaDLSSModeDependency with
    | none => none
    | some (W, Value) =>
      let bDLSSModeOff : Bool := decide (Value = ENvidiaDLSSMode.Off)
      let (W, bDLSSSupported) := W.IsDLSSSupported
      let (W, Support) := W.QueryDLSSSupport
      let bDLSSHardwareCompatible : Bool :=
        decide (Support ≠ UDLSSSupport.NotSupportedIncompatibleHardware)
      if !bDLSSSupported || !bDLSSHardwareCompatible || bDLSSModeOff then
        some (W, InOutEditState.Disable
          "Nvidia DLSS has to be supported, hardware compatible and not off.")
      else
        some (W, InOutEditState)

/-- The lambda of `NvidiaReflex` (lines 758-766), as a step on the world. -/
def NvidiaReflex_WhenCondition_Step (NvidiaDLSSModeDependency : Option UGameSetting) :
    FEditConditionStep :=
  fun W InOutEditState =>
    match W.GetValue_ENvidiaDLSSMode NvidiaDLSSModeDependency with
    | none => none
    | some (W, Value) =>
      let bDLSSModeOff : Bool := decide (Value = ENvidiaDLSSMode.Off)
      let (W, bDLSSSupported) := W.IsDLSSSupported
      if !bDLSSSupported || bDLSSModeOff then
        some (W, InOutEditState.Disable "Nvidia DLSS has to be supported and not off.")
      else
        some (W, InOutEditState)

/-- The lambda of `VerticalSync` (lines 831-836), as a step on the world. -/
def VerticalSync_WhenCondition_Step (WindowModeSetting : Option UGameSetting) :
    FEditConditionStep :=
  fun W InOutEditState =>
    match W.GetValue_EWindowMode WindowModeSetting with
    | none => none
    | some (W, Value) =>
      if Value ≠ EWindowMode.Fullscreen then
        some (W, InOutEditState.Disable FullscreenNeededForVSync)
      else
        some (W, InOutEditState)

/-- The lambdas `InitializeVideoSettings` passes to `FWhenCondition`, each as a step on
the world next to the same lambda as a function of the environment, with the pointer it
captures. -/
def FileWhenConditions : List (FEditConditionStep × FWhenConditionBody) :=
  [(Resolution_WhenCondition_Step (some UGameSetting.WindowMode),
      Resolution_WhenCondition (some UGameSetting.WindowMode)),
   (SafeZone_WhenCondition_Step, SafeZone_WhenCondition),
   (AutoSetQuality_WhenCondition_Step, AutoSetQuality_WhenCondition),
   (NvidiaDLSSMode_WhenCondition_Step, NvidiaDLSSMode_WhenCondition),
   (NvidiaDLSSSharpness_WhenCondition_Step (some UGameSetting.NvidiaDLSSMode),
      NvidiaDLSSSharpness_WhenCondition (some UGameSetting.NvidiaDLSSMode)),
   (NvidiaDLSSFrameGeneration_WhenCondition_Step (some UGameSetting.NvidiaDLSSMode),
      NvidiaDLSSFrameGeneration_WhenCondition (some UGameSetting.NvidiaDLSSMode)),
   (NvidiaReflex_WhenCondition_Step (some UGameSetting.NvidiaDLSSMode),
      NvidiaReflex_WhenCondition (some UGameSetting.NvidiaDLSSMode)),
   (VerticalSync_WhenCondition_Step (some UGameSetting.WindowMode),
      VerticalSync_WhenCondition (some UGameSetting.WindowMode))]

/-! ## Number options -/

/-- The loop `for (int32 Index = 0; Index <= 10; Index++) Setting->AddOption(Index,
FText::AsNumber(Index))` of `ColorBlindStrength` (lines 200-203) and of
`NvidiaDLSSSharpness` (lines 670-673), from the given index on: the options added, as
pairs of value and label, in call order. No index reached is large enough for
`FText::AsNumber` to group digits. -/
def AddNumberOptionsFrom (Index : Nat) (Options : List (Int × String)) : List (Int × String) :=
  if Index ≤ 10 then
    AddNumberOptionsFrom (Index + 1) (Options ++ [((Index : Int), toString Index)])
  else
    Options
termination_by 11 - Index

/-- The options of `ColorBlindStrength` (lines 200-203). -/
def ColorBlindStrength_Options : List (Int × String) :=
  AddNumberOptionsFrom 0 []

/-- The options of `NvidiaDLSSSharpness` (lines 670-673). -/
def NvidiaDLSSSharpness_Options : List (Int × String) :=
  AddNumberOptionsFrom 0 []

/-! ## Evaluation of a list of conditions -/

/-- Modelled from the spec: the evaluation of `Evaluate` on an explicit list of
conditions, run in list order on a fresh edit state. -/
def EvaluateConditions (Conditions : List FGameSettingEditCondition) (E : FEnvironment) :
    Option FGameSettingEditableState :=
  Conditions.foldlM (fun EditState Condition => Condition.GatherEditState E EditState)
    ({} : FGameSettingEditableState)

/-- The verdict a condition yields by itself: the one it leaves on a fresh edit state
(`Allowed` if it does not return). -/
def FGameSettingEditCondition.OwnVerdict (self : FGameSettingEditCondition) (E : FEnvironment) :
    EVerdict :=
  match self.GatherEditState E {} with
  | some EditState => EditState.Verdict
  | none => EVerdict.Allowed

/-- A condition combines its own verdict into the edit state it is given. -/
def FGameSettingEditCondition.CombinesOwnVerdict (self : FGameSettingEditCondition)
    (E : FEnvironment) : Prop :=
  ∀ EditState : FGameSettingEditableState,
    ∃ Result, self.GatherEditState E EditState = some Result ∧
      Result.Verdict = EditState.Verdict.combine (self.OwnVerdict E)

/-- An environment whose platform offers two device-profile variants that pass the
refresh-rate filter, so that `DeviceProfileSuffix` is added to its collection. -/
def TwoProfilesEnvironment : FEnvironment :=
  { DesktopEnvironment with
    PlatformSettings :=
      { DefaultDeviceProfileSuffix := ""
        UserFacingDeviceProfileOptions :=
          [{ DisplayName := "Quality", DeviceProfileSuffix := "_Quality", MinRefreshRate := 0 },
           { DisplayName := "Performance", DeviceProfileSuffix := "_Performance",
             MinRefreshRate := 60 }]
        bSupportsGranularVideoQualitySettings := false
        FramePacingMode := ELyraFramePacingMode.ConsoleStyle } }

/-- The settings that are the argument of an `AddEditDependency` call of
`InitializeVideoSettings`. -/
def EditDependencyTargets : List UGameSetting :=
  [UGameSetting.WindowMode, UGameSetting.AutoSetQuality, UGameSetting.GraphicsQualityPresets,
   UGameSetting.FrameRateLimit_Mobile, UGameSetting.ResolutionScale,
   UGameSetting.GlobalIlluminationQuality, UGameSetting.Shadows, UGameSetting.AntiAliasing,
   UGameSetting.ViewDistance, UGameSetting.TextureQuality, UGameSetting.VisualEffectQuality,
   UGameSetting.ReflectionQuality, UGameSetting.PostProcessingQuality,
   UGameSetting.NvidiaDLSSMode]

/-- A setting is owned by the tree: it was added to a collection that was added to the
root collection. -/
def FVideoSettingsTree.Owns (T : FVideoSettingsTree) (Setting : UGameSetting) : Bool :=
  T.Settings.any (fun p =>
    decide (p.2 = Setting) &&
      T.Settings.any (fun q => decide (some q.1 = T.Root) && decide (q.2 = p.1)))

/-! ## Frame rate limits -/

/-- An environment with three device-profile variants, the last of which asks for a
refresh rate above the platform's maximum of 60. -/
def ThreeProfilesEnvironment : FEnvironment :=
  { DesktopEnvironment with
    PlatformSettings :=
      { DefaultDeviceProfileSuffix := ""
        UserFacingDeviceProfileOptions :=
          [{ DisplayName := "Quality", DeviceProfileSuffix := "_Quality", MinRefreshRate := 0 },
           { DisplayName := "Performance", DeviceProfileSuffix := "_Performance",
             MinRefreshRate := 60 },
           { DisplayName := "Performance 120", DeviceProfileSuffix := "_Performance120",
             MinRefreshRate := 120 }]
        bSupportsGranularVideoQualitySettings := false
        FramePacingMode := ELyraFramePacingMode.ConsoleStyle } }

/-! ## Shared lemmas -/

theorem EVerdict.combine_Hidden (a : EVerdict) : a.combine EVerdict.Hidden = EVerdict.Hidden := by
  cases a <;> rfl

theorem EVerdict.Allowed_combine (a : EVerdict) : EVerdict.Allowed.combine a = a := by
  cases a <;> rfl

theorem Kill_Verdict (EditState : FGameSettingEditableState) (DevReason : String) :
    (EditState.Kill DevReason).Verdict = EVerdict.Hidden :=
  EVerdict.combine_Hidden EditState.Verdict

theorem Kill_ne_self (EditState : FGameSettingEditableState) (DevReason : String) :
    EditState.Kill DevReason ≠ EditState := by
  intro h
  have hlen := congrArg (fun s => s.Reasons.length) h
  simp [FGameSettingEditableState.Kill] at hlen

theorem Disable_ne_self (EditState : FGameSettingEditableState) (Reason : String) :
    EditState.Disable Reason ≠ EditState := by
  intro h
  have hlen := congrArg (fun s => s.Reasons.length) h
  simp [FGameSettingEditableState.Disable] at hlen

/-- The registered edit conditions do not depend on the environment the tree is built in:
only the registration of `DeviceProfileSuffix` in its collection does. -/
theorem InitializeVideoSettings_EditConditions (E : FEnvironment) :
    (InitializeVideoSettings E).EditConditions =
      (InitializeVideoSettings DesktopEnvironment).EditConditions := by
  by_cases h : (DeviceProfileSuffix_DynamicOptions E).length > 1
  · simp only [InitializeVideoSettings, h, if_true]
    rfl
  · simp only [InitializeVideoSettings, h, if_false]
    rfl

/-- The registered edit dependencies do not depend on the environment the tree is built in. -/
theorem InitializeVideoSettings_EditDependencies (E : FEnvironment) :
    (InitializeVideoSettings E).EditDependencies =
      (InitializeVideoSettings DesktopEnvironment).EditDependencies := by
  by_cases h : (DeviceProfileSuffix_DynamicOptions E).length > 1
  · simp only [InitializeVideoSettings, h, if_true]
    rfl
  · simp only [InitializeVideoSettings, h, if_false]
    rfl

theorem EditConditionsOf_Resolution (E : FEnvironment) :
    (InitializeVideoSettings E).EditConditionsOf UGameSetting.Resolution =
      [FWhenPlatformHasTrait.KillIfMissing TAG_Platform_Trait_SupportsWindowedMode
          "Platform does not support window mode",
        FGameSettingEditCondition.WhenCondition
          (Resolution_WhenCondition (some UGameSetting.WindowMode))] := by
  unfold FVideoSettingsTree.EditConditionsOf
  rw [InitializeVideoSettings_EditConditions]
  rfl

theorem EditConditionsOf_ResolutionScale (E : FEnvironment) :
    (InitializeVideoSettings E).EditConditionsOf UGameSetting.ResolutionScale =
      [FGameSettingEditCondition.VideoQuality
        { DisableString := "Platform does not support 3D Resolution" }] := by
  unfold FVideoSettingsTree.EditConditionsOf
  rw [InitializeVideoSettings_EditConditions]
  rfl

theorem EditConditionsOf_WindowMode (E : FEnvironment) :
    (InitializeVideoSettings E).EditConditionsOf UGameSetting.WindowMode =
      [FWhenPlatformHasTrait.KillIfMissing TAG_Platform_Trait_SupportsWindowedMode
        "Platform does not support window mode"] := by
  unfold FVideoSettingsTree.EditConditionsOf
  rw [InitializeVideoSettings_EditConditions]
  rfl

theorem EditConditionsOf_Brightness (E : FEnvironment) :
    (InitializeVideoSettings E).EditConditionsOf UGameSetting.Brightness =
      [FGameSettingEditCondition.WhenPlayingAsPrimaryPlayer,
        FWhenPlatformHasTrait.KillIfMissing TAG_Platform_Trait_NeedsBrightnessAdjustment
          "Platform does not require brightness adjustment."] := by
  unfold FVideoSettingsTree.EditConditionsOf
  rw [InitializeVideoSettings_EditConditions]
  rfl

theorem EditConditionsOf_NvidiaDLSSMode (E : FEnvironment) :
    (InitializeVideoSettings E).EditConditionsOf UGameSetting.NvidiaDLSSMode =
      [FGameSettingEditCondition.WhenPlayingAsPrimaryPlayer,
        FGameSettingEditCondition.WhenCondition NvidiaDLSSMode_WhenCondition] := by
  unfold FVideoSettingsTree.EditConditionsOf
  rw [InitializeVideoSettings_EditConditions]
  rfl

theorem EditConditionsOf_NvidiaDLSSSharpness (E : FEnvironment) :
    (InitializeVideoSettings E).EditConditionsOf UGameSetting.NvidiaDLSSSharpness =
      [FGameSettingEditCondition.WhenPlayingAsPrimaryPlayer,
        FGameSettingEditCondition.WhenCondition
          (NvidiaDLSSSharpness_WhenCondition (some UGameSetting.NvidiaDLSSMode))] := by
  unfold FVideoSettingsTree.EditConditionsOf
  rw [InitializeVideoSettings_EditConditions]
  rfl

theorem EditConditionsOf_NvidiaDLSSFrameGeneration (E : FEnvironment) :
    (InitializeVideoSettings E).EditConditionsOf UGameSetting.NvidiaDLSSFrameGeneration =
      [FGameSettingEditCondition.WhenPlayingAsPrimaryPlayer,
        FGameSettingEditCondition.WhenCondition
          (NvidiaDLSSFrameGeneration_WhenCondition (some UGameSetting.NvidiaDLSSMode))] := by
  unfold FVideoSettingsTree.EditConditionsOf
  rw [InitializeVideoSettings_EditConditions]
  rfl

theorem EditConditionsOf_NvidiaReflex (E : FEnvironment) :
    (InitializeVideoSettings E).EditConditionsOf UGameSetting.NvidiaReflex =
      [FGameSettingEditCondition.WhenPlayingAsPrimaryPlayer,
        FGameSettingEditCondition.WhenCondition
          (NvidiaReflex_WhenCondition (some UGameSetting.NvidiaDLSSMode))] := by
  unfold FVideoSettingsTree.EditConditionsOf
  rw [InitializeVideoSettings_EditConditions]
  rfl

/-! ## Resolution and the window mode -/

/-- C1, as stated, fails: on a platform without the trait
`Platform.Trait.SupportsWindowedMode`, with `WindowMode` at `WindowedFullscreen`,
evaluating the edit conditions of `Resolution` yields Hidden, not Disabled; and with
`WindowMode` back at `Fullscreen` it yields Hidden, not Allowed. -/
theorem Resolution_Hidden_without_windowed_mode_trait :
    ConsoleEnvironment.HasPlatformTrait TAG_Platform_Trait_SupportsWindowedMode = false ∧
      ConsoleEnvironment.GetValue_EWindowMode UGameSetting.WindowMode =
        EWindowMode.WindowedFullscreen ∧
      (InitializeVideoSettings ConsoleEnvironment).Evaluate ConsoleEnvironment
          UGameSetting.Resolution =
        some { Verdict := EVerdict.Hidden,
               Reasons := ["Platform does not support window mode",
                           ResolutionWindowedFullscreen_Disabled] } ∧
      (InitializeVideoSettings ConsoleEnvironment).Evaluate
          { ConsoleEnvironment with GetValue_EWindowMode := fun _ => EWindowMode.Fullscreen }
          UGameSetting.Resolution =
        some { Verdict := EVerdict.Hidden,
               Reasons := ["Platform does not support window mode"] } ∧
      EVerdict.Hidden ≠ EVerdict.Disabled ∧ EVerdict.Hidden ≠ EVerdict.Allowed := by
  refine ⟨rfl, rfl, ?_, ?_, by decide, by decide⟩
  · decide
  · decide

/-- C1, amended: on a platform that has the trait `Platform.Trait.SupportsWindowedMode`,
evaluating the edit conditions of `Resolution` yields Disabled with one non-empty reason
when the value of `WindowMode` is `WindowedFullscreen`, and yields Allowed once the
value of `WindowMode` is `Fullscreen` again. The tree may have been built in any
environment `E₀`; `E₁` and `E₂` are the environments of the two evaluations. -/
theorem Resolution_Disabled_iff_WindowedFullscreen (E₀ E₁ E₂ : FEnvironment)
    (hTrait₁ : E₁.HasPlatformTrait TAG_Platform_Trait_SupportsWindowedMode = true)
    (hTrait₂ : E₂.HasPlatformTrait TAG_Platform_Trait_SupportsWindowedMode = true)
    (hWindowedFullscreen :
      E₁.GetValue_EWindowMode UGameSetting.WindowMode = EWindowMode.WindowedFullscreen)
    (hFullscreen : E₂.GetValue_EWindowMode UGameSetting.WindowMode = EWindowMode.Fullscreen) :
    (InitializeVideoSettings E₀).Evaluate E₁ UGameSetting.Resolution =
        some { Verdict := EVerdict.Disabled, Reasons := [ResolutionWindowedFullscreen_Disabled] } ∧
      ResolutionWindowedFullscreen_Disabled ≠ "" ∧
      (InitializeVideoSettings E₀).Evaluate E₂ UGameSetting.Resolution =
        some { Verdict := EVerdict.Allowed, Reasons := [] } := by
  refine ⟨?_, by decide, ?_⟩
  · simp [FVideoSettingsTree.Evaluate, EditConditionsOf_Resolution,
      FWhenPlatformHasTrait.KillIfMissing, FGameSettingEditCondition.GatherEditState,
      FWhenPlatformHasTrait.GatherEditState, Resolution_WhenCondition, hTrait₁,
      hWindowedFullscreen, FGameSettingEditableState.Disable, EVerdict.Allowed_combine]
  · simp [FVideoSettingsTree.Evaluate, EditConditionsOf_Resolution,
      FWhenPlatformHasTrait.KillIfMissing, FGameSettingEditCondition.GatherEditState,
      FWhenPlatformHasTrait.GatherEditState, Resolution_WhenCondition, hTrait₂, hFullscreen]

/-- Witness of C1 amended: the desktop environment, first with `WindowMode` at
`WindowedFullscreen`, then back at `Fullscreen`. -/
theorem Resolution_Disabled_iff_WindowedFullscreen_witness :
    (InitializeVideoSettings DesktopEnvironment).Evaluate
        { DesktopEnvironment with GetValue_EWindowMode := fun _ => EWindowMode.WindowedFullscreen }
        UGameSetting.Resolution =
        some { Verdict := EVerdict.Disabled, Reasons := [ResolutionWindowedFullscreen_Disabled] } ∧
      ResolutionWindowedFullscreen_Disabled ≠ "" ∧
      (InitializeVideoSettings DesktopEnvironment).Evaluate DesktopEnvironment
        UGameSetting.Resolution =
        some { Verdict := EVerdict.Allowed, Reasons := [] } :=
  Resolution_Disabled_iff_WindowedFullscreen DesktopEnvironment
    { DesktopEnvironment with GetValue_EWindowMode := fun _ => EWindowMode.WindowedFullscreen }
    DesktopEnvironment (by decide) (by decide) rfl rfl

/-! ## The video quality condition -/

/-- C2: `FGameSettingEditCondition_VideoQuality::GatherEditState` kills the setting with
its `DisableString` when `bSupportsGranularVideoQualitySettings` is false and returns the
edit state as it got it when the flag is true, so its result is a function of the flag,
the disable string and the incoming edit state alone; it changes the edit state exactly
when the flag is false; the killed state is Hidden with the disable string as its added
reason. For the condition attached to `ResolutionScale`, on a fresh edit state and
whatever the values of the settings are, the result is Hidden with the disable string
under a false flag and Allowed once the flag alone is flipped to true. -/
theorem VideoQuality_GatherEditState_by_flag (Condition : FGameSettingEditCondition_VideoQuality)
    (E₀ E : FEnvironment) (EditState : FGameSettingEditableState) :
    Condition.GatherEditState E EditState =
        (if E.PlatformSettings.bSupportsGranularVideoQualitySettings = true then EditState
         else EditState.Kill Condition.DisableString) ∧
      (Condition.GatherEditState E EditState ≠ EditState ↔
        E.PlatformSettings.bSupportsGranularVideoQualitySettings = false) ∧
      (EditState.Kill Condition.DisableString).Verdict = EVerdict.Hidden ∧
      (EditState.Kill Condition.DisableString).Reasons =
        EditState.Reasons ++ [Condition.DisableString] ∧
      (InitializeVideoSettings E₀).EditConditionsOf UGameSetting.ResolutionScale =
        [FGameSettingEditCondition.VideoQuality
          { DisableString := "Platform does not support 3D Resolution" }] ∧
      ({ DisableString := "Platform does not support 3D Resolution" } :
          FGameSettingEditCondition_VideoQuality).GatherEditState
          { E with PlatformSettings :=
              { E.PlatformSettings with bSupportsGranularVideoQualitySettings := false } }
          {} =
        { Verdict := EVerdict.Hidden, Reasons := ["Platform does not support 3D Resolution"] } ∧
      ({ DisableString := "Platform does not support 3D Resolution" } :
          FGameSettingEditCondition_VideoQuality).GatherEditState
          { E with PlatformSettings :=
              { E.PlatformSettings with bSupportsGranularVideoQualitySettings := true } }
          {} =
        { Verdict := EVerdict.Allowed, Reasons := [] } := by
  have hGather : Condition.GatherEditState E EditState =
      (if E.PlatformSettings.bSupportsGranularVideoQualitySettings = true then EditState
       else EditState.Kill Condition.DisableString) := by
    unfold FGameSettingEditCondition_VideoQuality.GatherEditState
    cases E.PlatformSettings.bSupportsGranularVideoQualitySettings <;> rfl
  refine ⟨hGather, ?_, Kill_Verdict _ _, rfl, EditConditionsOf_ResolutionScale E₀, rfl, rfl⟩
  rw [hGather]
  cases h : E.PlatformSettings.bSupportsGranularVideoQualitySettings
  · simpa using Kill_ne_self EditState Condition.DisableString
  · simp

/-! ## The frame pacing condition -/

theorem FramePacingModeKillReason_ne_empty (ActualMode DesiredMode : Int) :
    FramePacingModeKillReason ActualMode DesiredMode ≠ "" := by
  intro h
  have hlen := congrArg String.length h
  have h18 : "Frame pacing mode ".length = 18 := by decide
  simp [FramePacingModeKillReason, String.length_append, h18] at hlen

/-- C5: `FGameSettingEditCondition_FramePacingMode` has both polarities. The match mode of
a condition built from a desired mode alone is `EnableIf`. For every actual and every
desired mode, with `EnableIf` the condition kills the setting when the actual mode
differs from the desired one and returns the edit state as it got it when they are
equal; with `DisableIf` it kills the setting when they are equal and returns the edit
state as it got it when they differ. So the edit state changes exactly when the modes
differ (`EnableIf`) or are equal (`DisableIf`). -/
theorem FramePacingMode_GatherEditState_polarities (DesiredMode : ELyraFramePacingMode)
    (E : FEnvironment) (EditState : FGameSettingEditableState) :
    ({ DesiredMode := DesiredMode } : FGameSettingEditCondition_FramePacingMode).MatchMode =
        EFramePacingEditCondition.EnableIf ∧
      ({ DesiredMode := DesiredMode } : FGameSettingEditCondition_FramePacingMode).GatherEditState
          E EditState =
        (if E.PlatformSettings.FramePacingMode = DesiredMode then EditState
         else EditState.Kill
          (FramePacingModeKillReason (E.FramePacingModeAsInt32 E.PlatformSettings.FramePacingMode)
            (E.FramePacingModeAsInt32 DesiredMode))) ∧
      ({ DesiredMode := DesiredMode, MatchMode := EFramePacingEditCondition.DisableIf } :
          FGameSettingEditCondition_FramePacingMode).GatherEditState E EditState =
        (if E.PlatformSettings.FramePacingMode = DesiredMode then
          EditState.Kill
            (FramePacingModeKillReason
              (E.FramePacingModeAsInt32 E.PlatformSettings.FramePacingMode)
              (E.FramePacingModeAsInt32 DesiredMode))
         else EditState) ∧
      (({ DesiredMode := DesiredMode, MatchMode := EFramePacingEditCondition.EnableIf } :
          FGameSettingEditCondition_FramePacingMode).GatherEditState E EditState ≠ EditState ↔
        E.PlatformSettings.FramePacingMode ≠ DesiredMode) ∧
      (({ DesiredMode := DesiredMode, MatchMode := EFramePacingEditCondition.DisableIf } :
          FGameSettingEditCondition_FramePacingMode).GatherEditState E EditState ≠ EditState ↔
        E.PlatformSettings.FramePacingMode = DesiredMode) := by
  refine ⟨rfl, ?_, ?_, ?_, ?_⟩
  · by_cases h : E.PlatformSettings.FramePacingMode = DesiredMode <;>
      simp [FGameSettingEditCondition_FramePacingMode.GatherEditState, h]
  · by_cases h : E.PlatformSettings.FramePacingMode = DesiredMode <;>
      simp [FGameSettingEditCondition_FramePacingMode.GatherEditState, h]
  · by_cases h : E.PlatformSettings.FramePacingMode = DesiredMode <;>
      simp [FGameSettingEditCondition_FramePacingMode.GatherEditState, h, Kill_ne_self]
  · by_cases h : E.PlatformSettings.FramePacingMode = DesiredMode <;>
      simp [FGameSettingEditCondition_FramePacingMode.GatherEditState, h, Kill_ne_self]

/-- C6, as stated, fails: on a desktop platform the condition requiring `MobileStyle`
(the one of `FrameRateLimit_Mobile`) is violated, and from a fresh edit state it yields
Hidden, not Disabled. -/
theorem FramePacingMode_violation_is_Hidden_on_desktop :
    DesktopEnvironment.PlatformSettings.FramePacingMode ≠ ELyraFramePacingMode.MobileStyle ∧
      ({ DesiredMode := ELyraFramePacingMode.MobileStyle } :
          FGameSettingEditCondition_FramePacingMode).GatherEditState DesktopEnvironment {} =
        { Verdict := EVerdict.Hidden,
          Reasons := ["Frame pacing mode 0 didn\x27t match requirement 2"] } ∧
      EVerdict.Hidden ≠ EVerdict.Disabled := by
  refine ⟨by decide, ?_, by decide⟩
  decide

/-- C6, amended: when the match or mismatch policy of
`FGameSettingEditCondition_FramePacingMode` is violated (`EnableIf` with the actual mode
different from the desired one, or `DisableIf` with the two equal), the verdict of the
edit state it returns is Hidden, whatever the verdict was before, and the reason it adds
is a non-empty message. -/
theorem FramePacingMode_violation_is_Hidden
    (Condition : FGameSettingEditCondition_FramePacingMode) (E : FEnvironment)
    (EditState : FGameSettingEditableState)
    (hViolated :
      (Condition.MatchMode = EFramePacingEditCondition.EnableIf ∧
          E.PlatformSettings.FramePacingMode ≠ Condition.DesiredMode) ∨
        (Condition.MatchMode = EFramePacingEditCondition.DisableIf ∧
          E.PlatformSettings.FramePacingMode = Condition.DesiredMode)) :
    (Condition.GatherEditState E EditState).Verdict = EVerdict.Hidden ∧
      (Condition.GatherEditState E EditState).Reasons =
        EditState.Reasons ++
          [FramePacingModeKillReason
            (E.FramePacingModeAsInt32 E.PlatformSettings.FramePacingMode)
            (E.FramePacingModeAsInt32 Condition.DesiredMode)] ∧
      FramePacingModeKillReason (E.FramePacingModeAsInt32 E.PlatformSettings.FramePacingMode)
        (E.FramePacingModeAsInt32 Condition.DesiredMode) ≠ "" := by
  have hKill : Condition.GatherEditState E EditState =
      EditState.Kill
        (FramePacingModeKillReason (E.FramePacingModeAsInt32 E.PlatformSettings.FramePacingMode)
          (E.FramePacingModeAsInt32 Condition.DesiredMode)) := by
    rcases hViolated with ⟨hMode, hNe⟩ | ⟨hMode, hEq⟩
    · simp [FGameSettingEditCondition_FramePacingMode.GatherEditState, hMode, hNe]
    · simp [FGameSettingEditCondition_FramePacingMode.GatherEditState, hMode, hEq]
  rw [hKill]
  exact ⟨Kill_Verdict _ _, rfl, FramePacingModeKillReason_ne_empty _ _⟩

/-- Witness of C6 amended: the condition of `FrameRateLimit_Mobile` on a desktop platform. -/
theorem FramePacingMode_violation_is_Hidden_witness :
    (({ DesiredMode := ELyraFramePacingMode.MobileStyle } :
          FGameSettingEditCondition_FramePacingMode).GatherEditState DesktopEnvironment {}).Verdict =
        EVerdict.Hidden ∧
      (({ DesiredMode := ELyraFramePacingMode.MobileStyle } :
          FGameSettingEditCondition_FramePacingMode).GatherEditState DesktopEnvironment {}).Reasons =
        ([] : List String) ++ [FramePacingModeKillReason 0 2] ∧
      FramePacingModeKillReason 0 2 ≠ "" :=
  FramePacingMode_violation_is_Hidden { DesiredMode := ELyraFramePacingMode.MobileStyle }
    DesktopEnvironment {} (Or.inl ⟨rfl, by decide⟩)

/-! ## The edit-dependency relation -/

theorem EditDependsOn_iff_Desktop (E : FEnvironment) (A B : UGameSetting) :
    (InitializeVideoSettings E).EditDependsOn A B ↔
      (InitializeVideoSettings DesktopEnvironment).EditDependsOn A B := by
  unfold FVideoSettingsTree.EditDependsOn
  rw [InitializeVideoSettings_EditDependencies]

set_option maxRecDepth 8000 in
theorem EditDependsOnOutsidePresets_sink_Desktop : ∀ A B : UGameSetting,
    (InitializeVideoSettings DesktopEnvironment).EditDependsOnOutsidePresets A B →
      IsDependencySink A = false ∧ IsDependencySink B = true := by
  decide

theorem EditDependsOnOutsidePresets_sink (E : FEnvironment) (A B : UGameSetting)
    (h : (InitializeVideoSettings E).EditDependsOnOutsidePresets A B) :
    IsDependencySink A = false ∧ IsDependencySink B = true :=
  EditDependsOnOutsidePresets_sink_Desktop A B ⟨(EditDependsOn_iff_Desktop E A B).1 h.1, h.2⟩

theorem TransGen_EditDependsOnOutsidePresets_sink (E : FEnvironment) (A B : UGameSetting)
    (h : Relation.TransGen (InitializeVideoSettings E).EditDependsOnOutsidePresets A B) :
    IsDependencySink A = false ∧ IsDependencySink B = true := by
  induction h with
  | single hAB => exact EditDependsOnOutsidePresets_sink E _ _ hAB
  | tail _ hBC ih =>
    have hB := (EditDependsOnOutsidePresets_sink E _ _ hBC).1
    rw [ih.2] at hB
    exact absurd hB (by decide)

theorem MarkDirtyRounds_congr (T T' : FVideoSettingsTree)
    (h : T.EditDependencies = T'.EditDependencies) (Rounds : Nat) :
    ∀ Dirty : List UGameSetting, T.MarkDirtyRounds Rounds Dirty = T'.MarkDirtyRounds Rounds Dirty := by
  have hDependents : T.Dependents = T'.Dependents := by
    funext Changed
    simp only [FVideoSettingsTree.Dependents, h]
  induction Rounds with
  | zero => intro Dirty; rfl
  | succ n ih =>
    intro Dirty
    simp only [FVideoSettingsTree.MarkDirtyRounds, hDependents, ih]

theorem MarkDirty_eq_Desktop (E : FEnvironment) (Changed : UGameSetting) :
    (InitializeVideoSettings E).MarkDirty Changed =
      (InitializeVideoSettings DesktopEnvironment).MarkDirty Changed :=
  MarkDirtyRounds_congr _ _ (InitializeVideoSettings_EditDependencies E) 34 [Changed]

theorem mem_Dependents (T : FVideoSettingsTree) (S Changed : UGameSetting) :
    S ∈ T.Dependents Changed ↔ T.EditDependsOn S Changed := by
  unfold FVideoSettingsTree.Dependents FVideoSettingsTree.EditDependsOn
  rw [List.mem_filterMap]
  constructor
  · rintro ⟨⟨A, B⟩, hMem, hEq⟩
    by_cases hB : B = some Changed
    · simp only [hB, if_true] at hEq
      subst hB hEq
      exact hMem
    · simp [hB] at hEq
  · intro hMem
    exact ⟨(some S, some Changed), hMem, by simp⟩

/-- Every setting marked dirty depends on the changed one, directly or through others. -/
theorem MarkDirtyRounds_sound (T : FVideoSettingsTree) (Changed : UGameSetting) (Rounds : Nat) :
    ∀ Dirty : List UGameSetting,
      (∀ S ∈ Dirty, Relation.ReflTransGen T.EditDependsOn S Changed) →
        ∀ S ∈ T.MarkDirtyRounds Rounds Dirty, Relation.ReflTransGen T.EditDependsOn S Changed := by
  induction Rounds with
  | zero => intro Dirty hDirty S hS; exact hDirty S hS
  | succ n ih =>
    intro Dirty hDirty S hS
    simp only [FVideoSettingsTree.MarkDirtyRounds] at hS
    split at hS
    · exact hDirty S hS
    · refine ih _ ?_ S hS
      intro A hA
      rcases List.mem_append.1 hA with hOld | hNew
      · exact hDirty A hOld
      · have hFilter := List.mem_dedup.1 hNew
        have hFlat := (List.mem_filter.1 hFilter).1
        obtain ⟨L, hL, hAL⟩ := List.mem_flatten.1 hFlat
        obtain ⟨D, hD, rfl⟩ := List.mem_map.1 hL
        exact Relation.ReflTransGen.head ((mem_Dependents T A D).1 hAL) (hDirty D hD)

set_option maxRecDepth 8000 in
/-- The 34 rounds of `MarkDirty` are enough in this tree: the dirty set of every setting
holds the setting and is closed under taking dependents. -/
theorem MarkDirty_closed_Desktop :
    ∀ Changed : UGameSetting,
      Changed ∈ (InitializeVideoSettings DesktopEnvironment).MarkDirty Changed ∧
        ∀ S ∈ (InitializeVideoSettings DesktopEnvironment).MarkDirty Changed,
          ∀ D ∈ (InitializeVideoSettings DesktopEnvironment).Dependents S,
            D ∈ (InitializeVideoSettings DesktopEnvironment).MarkDirty Changed := by
  decide

set_option maxRecDepth 4000 in
theorem EditDependsOn_irreflexive_Desktop :
    ∀ S : UGameSetting, ¬ (InitializeVideoSettings DesktopEnvironment).EditDependsOn S S := by
  decide

set_option maxRecDepth 4000 in
theorem GraphicsQualityPresets_mutual_Desktop :
    ∀ S ∈ UGameSetting.FrameRateLimit_Mobile :: GranularQualitySettings,
      (InitializeVideoSettings DesktopEnvironment).EditDependsOn
          UGameSetting.GraphicsQualityPresets S ∧
        (InitializeVideoSettings DesktopEnvironment).EditDependsOn S
          UGameSetting.GraphicsQualityPresets := by
  decide

set_option maxRecDepth 4000 in
theorem EditDependencies_calls_Desktop :
    (InitializeVideoSettings DesktopEnvironment).EditDependencies.length = 36 ∧
      (InitializeVideoSettings DesktopEnvironment).EditDependencies.all
        (fun Call => Call.1.isSome && Call.2.isSome) = true := by
  decide

set_option maxRecDepth 4000 in
theorem GranularQualitySettings_dependencies_Desktop :
    ∀ S ∈ GranularQualitySettings,
      (InitializeVideoSettings DesktopEnvironment).EditDependsOn
          UGameSetting.GraphicsQualityPresets S ∧
        (InitializeVideoSettings DesktopEnvironment).EditDependsOn S
          UGameSetting.AutoSetQuality ∧
        (InitializeVideoSettings DesktopEnvironment).EditDependsOn S
          UGameSetting.GraphicsQualityPresets ∧
        UGameSetting.GraphicsQualityPresets ∈
          (InitializeVideoSettings DesktopEnvironment).MarkDirty S := by
  decide

/-- C3, as stated, fails: in the tree built by `InitializeVideoSettings` the fourth and
fifth `AddEditDependency` calls (lines 401-402) register `GraphicsQualityPresets →
FrameRateLimit_Mobile` and then `FrameRateLimit_Mobile → GraphicsQualityPresets`, which
closes a cycle; so `GraphicsQualityPresets` reaches itself along dependency edges. -/
theorem EditDependency_cycle_GraphicsQualityPresets_FrameRateLimit_Mobile :
    ((InitializeVideoSettings DesktopEnvironment).EditDependencies.drop 3).take 2 =
        [(some UGameSetting.GraphicsQualityPresets, some UGameSetting.FrameRateLimit_Mobile),
         (some UGameSetting.FrameRateLimit_Mobile, some UGameSetting.GraphicsQualityPresets)] ∧
      Relation.TransGen (InitializeVideoSettings DesktopEnvironment).EditDependsOn
        UGameSetting.GraphicsQualityPresets UGameSetting.GraphicsQualityPresets := by
  refine ⟨by decide, ?_⟩
  exact Relation.TransGen.tail
    (Relation.TransGen.single
      (show (InitializeVideoSettings DesktopEnvironment).EditDependsOn
          UGameSetting.GraphicsQualityPresets UGameSetting.FrameRateLimit_Mobile by decide))
    (show (InitializeVideoSettings DesktopEnvironment).EditDependsOn
        UGameSetting.FrameRateLimit_Mobile UGameSetting.GraphicsQualityPresets by decide)

/-- C3, amended: in the tree built by `InitializeVideoSettings`, in any environment, no
setting declares an edit dependency on itself, and every dependency cycle passes through
`GraphicsQualityPresets`: without the edges that leave `GraphicsQualityPresets` no
setting reaches itself. The relation as a whole is not acyclic: `GraphicsQualityPresets`
and each of `FrameRateLimit_Mobile` and the nine granular quality settings depend on
each other. All 36 `AddEditDependency` calls are registered, each with a non-null
receiver and a non-null argument. -/
theorem EditDependency_cycles_pass_through_GraphicsQualityPresets (E : FEnvironment) :
    (∀ S : UGameSetting, ¬ (InitializeVideoSettings E).EditDependsOn S S) ∧
      (∀ S : UGameSetting,
        ¬ Relation.TransGen (InitializeVideoSettings E).EditDependsOnOutsidePresets S S) ∧
      (∀ S ∈ UGameSetting.FrameRateLimit_Mobile :: GranularQualitySettings,
        (InitializeVideoSettings E).EditDependsOn UGameSetting.GraphicsQualityPresets S ∧
          (InitializeVideoSettings E).EditDependsOn S UGameSetting.GraphicsQualityPresets) ∧
      (InitializeVideoSettings E).EditDependencies.length = 36 ∧
      (InitializeVideoSettings E).EditDependencies.all
        (fun Call => Call.1.isSome && Call.2.isSome) = true := by
  refine ⟨?_, ?_, ?_, ?_⟩
  · intro S
    rw [EditDependsOn_iff_Desktop]
    exact EditDependsOn_irreflexive_Desktop S
  · intro S h
    have hSink := TransGen_EditDependsOnOutsidePresets_sink E S S h
    rw [hSink.1] at hSink
    exact absurd hSink.2 (by decide)
  · simp only [EditDependsOn_iff_Desktop E]
    exact GraphicsQualityPresets_mutual_Desktop
  · rw [InitializeVideoSettings_EditDependencies]
    exact EditDependencies_calls_Desktop

/-- C4: in the tree built by `InitializeVideoSettings`, in any environment, for each of
the nine granular quality settings `S`: `GraphicsQualityPresets` declares an edit
dependency on `S`, `S` declares an edit dependency on `AutoSetQuality` and on
`GraphicsQualityPresets`, and a change of `S` marks `GraphicsQualityPresets` dirty.
Shadows, Textures, View Distance, Effects and Reflections are among the nine. -/
theorem GraphicsQualityPresets_depends_on_granular_settings (E : FEnvironment)
    (S : UGameSetting) (hS : S ∈ GranularQualitySettings) :
    (InitializeVideoSettings E).EditDependsOn UGameSetting.GraphicsQualityPresets S ∧
      (InitializeVideoSettings E).EditDependsOn S UGameSetting.AutoSetQuality ∧
      (InitializeVideoSettings E).EditDependsOn S UGameSetting.GraphicsQualityPresets ∧
      UGameSetting.GraphicsQualityPresets ∈ (InitializeVideoSettings E).MarkDirty S ∧
      (∀ Named ∈ [UGameSetting.Shadows, UGameSetting.TextureQuality, UGameSetting.ViewDistance,
          UGameSetting.VisualEffectQuality, UGameSetting.ReflectionQuality],
        Named ∈ GranularQualitySettings) := by
  rw [MarkDirty_eq_Desktop]
  simp only [EditDependsOn_iff_Desktop E]
  have h := GranularQualitySettings_dependencies_Desktop S hS
  exact ⟨h.1, h.2.1, h.2.2.1, h.2.2.2, by decide⟩

/-- Witness of C4: the `Shadows` setting in the tree built on the desktop environment. -/
theorem GraphicsQualityPresets_depends_on_Shadows :
    (InitializeVideoSettings DesktopEnvironment).EditDependsOn
        UGameSetting.GraphicsQualityPresets UGameSetting.Shadows ∧
      (InitializeVideoSettings DesktopEnvironment).EditDependsOn UGameSetting.Shadows
        UGameSetting.AutoSetQuality ∧
      (InitializeVideoSettings DesktopEnvironment).EditDependsOn UGameSetting.Shadows
        UGameSetting.GraphicsQualityPresets ∧
      UGameSetting.GraphicsQualityPresets ∈
        (InitializeVideoSettings DesktopEnvironment).MarkDirty UGameSetting.Shadows ∧
      (∀ Named ∈ [UGameSetting.Shadows, UGameSetting.TextureQuality, UGameSetting.ViewDistance,
          UGameSetting.VisualEffectQuality, UGameSetting.ReflectionQuality],
        Named ∈ GranularQualitySettings) :=
  GraphicsQualityPresets_depends_on_granular_settings DesktopEnvironment UGameSetting.Shadows
    (by decide)

/-! ## Platform traits -/

/-- C7: in the tree built by `InitializeVideoSettings`, in any environment, and for every
environment of the evaluation (so whatever the values of the settings are, `WindowMode`
at `WindowedFullscreen` included): if the platform lacks the trait
`Platform.Trait.SupportsWindowedMode`, evaluating `WindowMode` and evaluating `Resolution`
both return Hidden; if it lacks `Platform.Trait.NeedsBrightnessAdjustment`, evaluating
`Brightness` returns Hidden. A trait condition returns the edit state as it got it when
its trait is present and kills the setting otherwise. -/
theorem Trait_conditions_hide_when_trait_missing (E₀ E : FEnvironment) :
    (E.HasPlatformTrait TAG_Platform_Trait_SupportsWindowedMode = false →
        ((InitializeVideoSettings E₀).Evaluate E UGameSetting.WindowMode).map
            FGameSettingEditableState.Verdict = some EVerdict.Hidden ∧
          ((InitializeVideoSettings E₀).Evaluate E UGameSetting.Resolution).map
            FGameSettingEditableState.Verdict = some EVerdict.Hidden) ∧
      (E.HasPlatformTrait TAG_Platform_Trait_NeedsBrightnessAdjustment = false →
        ((InitializeVideoSettings E₀).Evaluate E UGameSetting.Brightness).map
          FGameSettingEditableState.Verdict = some EVerdict.Hidden) ∧
      (∀ (Condition : FWhenPlatformHasTrait) (EditState : FGameSettingEditableState),
        Condition.GatherEditState E EditState =
          (if E.HasPlatformTrait Condition.VisibilityTag = true then EditState
           else EditState.Kill Condition.KillReason)) := by
  refine ⟨?_, ?_, ?_⟩
  · intro hMissing
    constructor
    · simp [FVideoSettingsTree.Evaluate, EditConditionsOf_WindowMode,
        FWhenPlatformHasTrait.KillIfMissing, FGameSettingEditCondition.GatherEditState,
        FWhenPlatformHasTrait.GatherEditState, hMissing, Kill_Verdict]
    · by_cases hMode :
          E.GetValue_EWindowMode UGameSetting.WindowMode = EWindowMode.WindowedFullscreen
      · simp [FVideoSettingsTree.Evaluate, EditConditionsOf_Resolution,
          FWhenPlatformHasTrait.KillIfMissing, FGameSettingEditCondition.GatherEditState,
          FWhenPlatformHasTrait.GatherEditState, Resolution_WhenCondition, hMissing, hMode,
          FGameSettingEditableState.Disable, FGameSettingEditableState.Kill]
        rfl
      · simp [FVideoSettingsTree.Evaluate, EditConditionsOf_Resolution,
          FWhenPlatformHasTrait.KillIfMissing, FGameSettingEditCondition.GatherEditState,
          FWhenPlatformHasTrait.GatherEditState, Resolution_WhenCondition, hMissing, hMode,
          Kill_Verdict]
  · intro hMissing
    simp [FVideoSettingsTree.Evaluate, EditConditionsOf_Brightness,
      FWhenPlatformHasTrait.KillIfMissing, FGameSettingEditCondition.GatherEditState,
      FWhenPlatformHasTrait.GatherEditState, hMissing, Kill_Verdict]
  · intro Condition EditState
    unfold FWhenPlatformHasTrait.GatherEditState
    cases E.HasPlatformTrait Condition.VisibilityTag <;> rfl

/-- Witness of C7: the console-like environment, which has no platform trait and
`WindowedFullscreen` as the window mode. -/
theorem Trait_conditions_hide_on_console :
    (((InitializeVideoSettings ConsoleEnvironment).Evaluate ConsoleEnvironment
          UGameSetting.WindowMode).map FGameSettingEditableState.Verdict = some EVerdict.Hidden ∧
        ((InitializeVideoSettings ConsoleEnvironment).Evaluate ConsoleEnvironment
          UGameSetting.Resolution).map FGameSettingEditableState.Verdict = some EVerdict.Hidden) ∧
      ((InitializeVideoSettings ConsoleEnvironment).Evaluate ConsoleEnvironment
        UGameSetting.Brightness).map FGameSettingEditableState.Verdict = some EVerdict.Hidden :=
  ⟨(Trait_conditions_hide_when_trait_missing ConsoleEnvironment ConsoleEnvironment).1 rfl,
    (Trait_conditions_hide_when_trait_missing ConsoleEnvironment ConsoleEnvironment).2.1 rfl⟩

/-! ## DLSS capability conditions -/

/-- C8: the lambda attached to `NvidiaDLSSMode` (after the primary-player condition)
disables the setting, with a non-empty reason, when `IsDLSSSupported()` is false and
returns the edit state as it got it when the query is true; it changes the edit state
exactly when the query is false; on a fresh edit state the result is Disabled with that
one reason; and the result is the same whatever the values of the settings are. -/
theorem NvidiaDLSSMode_Disabled_iff_not_supported (E₀ E : FEnvironment)
    (EditState : FGameSettingEditableState) :
    (InitializeVideoSettings E₀).EditConditionsOf UGameSetting.NvidiaDLSSMode =
        [FGameSettingEditCondition.WhenPlayingAsPrimaryPlayer,
          FGameSettingEditCondition.WhenCondition NvidiaDLSSMode_WhenCondition] ∧
      NvidiaDLSSMode_WhenCondition E EditState =
        some (if E.IsDLSSSupported = true then EditState
              else EditState.Disable "Nvidia DLSS has to be supported.") ∧
      (NvidiaDLSSMode_WhenCondition E EditState ≠ some EditState ↔ E.IsDLSSSupported = false) ∧
      ({} : FGameSettingEditableState).Disable "Nvidia DLSS has to be supported." =
        { Verdict := EVerdict.Disabled, Reasons := ["Nvidia DLSS has to be supported."] } ∧
      "Nvidia DLSS has to be supported." ≠ "" ∧
      (∀ (WindowModes : UGameSetting → EWindowMode) (DLSSModes : UGameSetting → ENvidiaDLSSMode),
        NvidiaDLSSMode_WhenCondition
            { E with GetValue_EWindowMode := WindowModes, GetValue_ENvidiaDLSSMode := DLSSModes }
            EditState =
          NvidiaDLSSMode_WhenCondition E EditState) := by
  refine ⟨EditConditionsOf_NvidiaDLSSMode E₀, ?_, ?_, by decide, by decide, ?_⟩
  · unfold NvidiaDLSSMode_WhenCondition
    cases E.IsDLSSSupported <;> rfl
  · unfold NvidiaDLSSMode_WhenCondition
    cases h : E.IsDLSSSupported
    · simpa using Disable_ne_self EditState "Nvidia DLSS has to be supported."
    · simp
  · intro WindowModes DLSSModes
    rfl

/-- C9: the lambdas attached to `NvidiaDLSSSharpness` and to `NvidiaReflex` (each after
the primary-player condition, each capturing the `NvidiaDLSSMode` setting) disable the
setting, with a non-empty reason, when `IsDLSSSupported()` is false or the value of
`NvidiaDLSSMode` is `Off`, and return the edit state as they got it otherwise: they
change the edit state exactly in that case. On a fresh edit state the disabled result is
Disabled with that one reason. The modes other than `Off` are DLAA, Quality, Balanced,
Performance, Ultra_Performance and Auto. -/
theorem NvidiaDLSSSharpness_and_Reflex_Disabled_iff (E₀ E : FEnvironment)
    (EditState : FGameSettingEditableState) :
    (InitializeVideoSettings E₀).EditConditionsOf UGameSetting.NvidiaDLSSSharpness =
        [FGameSettingEditCondition.WhenPlayingAsPrimaryPlayer,
          FGameSettingEditCondition.WhenCondition
            (NvidiaDLSSSharpness_WhenCondition (some UGameSetting.NvidiaDLSSMode))] ∧
      (InitializeVideoSettings E₀).EditConditionsOf UGameSetting.NvidiaReflex =
        [FGameSettingEditCondition.WhenPlayingAsPrimaryPlayer,
          FGameSettingEditCondition.WhenCondition
            (NvidiaReflex_WhenCondition (some UGameSetting.NvidiaDLSSMode))] ∧
      NvidiaDLSSSharpness_WhenCondition (some UGameSetting.NvidiaDLSSMode) E EditState =
        some (if E.IsDLSSSupported = false ∨
                  E.GetValue_ENvidiaDLSSMode UGameSetting.NvidiaDLSSMode = ENvidiaDLSSMode.Off
              then EditState.Disable "Nvidia DLSS has to be supported and not off."
              else EditState) ∧
      NvidiaReflex_WhenCondition (some UGameSetting.NvidiaDLSSMode) E EditState =
        some (if E.IsDLSSSupported = false ∨
                  E.GetValue_ENvidiaDLSSMode UGameSetting.NvidiaDLSSMode = ENvidiaDLSSMode.Off
              then EditState.Disable "Nvidia DLSS has to be supported and not off."
              else EditState) ∧
      (NvidiaDLSSSharpness_WhenCondition (some UGameSetting.NvidiaDLSSMode) E EditState ≠
          some EditState ↔
        (E.IsDLSSSupported = false ∨
          E.GetValue_ENvidiaDLSSMode UGameSetting.NvidiaDLSSMode = ENvidiaDLSSMode.Off)) ∧
      (NvidiaReflex_WhenCondition (some UGameSetting.NvidiaDLSSMode) E EditState ≠
          some EditState ↔
        (E.IsDLSSSupported = false ∨
          E.GetValue_ENvidiaDLSSMode UGameSetting.NvidiaDLSSMode = ENvidiaDLSSMode.Off)) ∧
      ({} : FGameSettingEditableState).Disable "Nvidia DLSS has to be supported and not off." =
        { Verdict := EVerdict.Disabled,
          Reasons := ["Nvidia DLSS has to be supported and not off."] } ∧
      "Nvidia DLSS has to be supported and not off." ≠ "" ∧
      (∀ Mode : ENvidiaDLSSMode, Mode ≠ ENvidiaDLSSMode.Off ↔
        Mode ∈ [ENvidiaDLSSMode.DLAA, ENvidiaDLSSMode.Quality, ENvidiaDLSSMode.Balanced,
          ENvidiaDLSSMode.Performance, ENvidiaDLSSMode.Ultra_Performance,
          ENvidiaDLSSMode.Auto]) := by
  have hSharpness :
      NvidiaDLSSSharpness_WhenCondition (some UGameSetting.NvidiaDLSSMode) E EditState =
        some (if E.IsDLSSSupported = false ∨
                  E.GetValue_ENvidiaDLSSMode UGameSetting.NvidiaDLSSMode = ENvidiaDLSSMode.Off
              then EditState.Disable "Nvidia DLSS has to be supported and not off."
              else EditState) := by
    unfold NvidiaDLSSSharpness_WhenCondition
    by_cases hMode :
        E.GetValue_ENvidiaDLSSMode UGameSetting.NvidiaDLSSMode = ENvidiaDLSSMode.Off <;>
      cases hSupported : E.IsDLSSSupported <;> simp [hMode]
  have hReflex :
      NvidiaReflex_WhenCondition (some UGameSetting.NvidiaDLSSMode) E EditState =
        some (if E.IsDLSSSupported = false ∨
                  E.GetValue_ENvidiaDLSSMode UGameSetting.NvidiaDLSSMode = ENvidiaDLSSMode.Off
              then EditState.Disable "Nvidia DLSS has to be supported and not off."
              else EditState) := by
    unfold NvidiaReflex_WhenCondition
    by_cases hMode :
        E.GetValue_ENvidiaDLSSMode UGameSetting.NvidiaDLSSMode = ENvidiaDLSSMode.Off <;>
      cases hSupported : E.IsDLSSSupported <;> simp [hMode]
  have hChanged : ((if E.IsDLSSSupported = false ∨
        E.GetValue_ENvidiaDLSSMode UGameSetting.NvidiaDLSSMode = ENvidiaDLSSMode.Off
      then EditState.Disable "Nvidia DLSS has to be supported and not off."
      else EditState) ≠ EditState ↔
      (E.IsDLSSSupported = false ∨
        E.GetValue_ENvidiaDLSSMode UGameSetting.NvidiaDLSSMode = ENvidiaDLSSMode.Off)) := by
    by_cases h : E.IsDLSSSupported = false ∨
        E.GetValue_ENvidiaDLSSMode UGameSetting.NvidiaDLSSMode = ENvidiaDLSSMode.Off
    · simp only [h, if_true, iff_true]
      exact Disable_ne_self _ _
    · simp only [h, if_false, iff_false]
      exact fun hne => hne rfl
  refine ⟨EditConditionsOf_NvidiaDLSSSharpness E₀, EditConditionsOf_NvidiaReflex E₀, hSharpness,
    hReflex, ?_, ?_, by decide, by decide, fun Mode => by cases Mode <;> simp⟩
  · rw [hSharpness]
    simpa using hChanged
  · rw [hReflex]
    simpa using hChanged

/-- C10: the lambda attached to `NvidiaDLSSFrameGeneration` (after the primary-player
condition, capturing the `NvidiaDLSSMode` setting) disables the setting when
`IsDLSSSupported()` is false, or `QueryDLSSSupport()` is
`NotSupportedIncompatibleHardware`, or the value of `NvidiaDLSSMode` is `Off`, and
returns the edit state as it got it otherwise: it changes the edit state exactly when
one of the three holds. On a fresh edit state the disabled result is Disabled, its one
reason being the text that names the three requirements. -/
theorem NvidiaDLSSFrameGeneration_Disabled_iff (E₀ E : FEnvironment)
    (EditState : FGameSettingEditableState) :
    (InitializeVideoSettings E₀).EditConditionsOf UGameSetting.NvidiaDLSSFrameGeneration =
        [FGameSettingEditCondition.WhenPlayingAsPrimaryPlayer,
          FGameSettingEditCondition.WhenCondition
            (NvidiaDLSSFrameGeneration_WhenCondition (some UGameSetting.NvidiaDLSSMode))] ∧
      NvidiaDLSSFrameGeneration_WhenCondition (some UGameSetting.NvidiaDLSSMode) E EditState =
        some (if E.IsDLSSSupported = false ∨
                  E.QueryDLSSSupport = UDLSSSupport.NotSupportedIncompatibleHardware ∨
                  E.GetValue_ENvidiaDLSSMode UGameSetting.NvidiaDLSSMode = ENvidiaDLSSMode.Off
              then EditState.Disable
                "Nvidia DLSS has to be supported, hardware compatible and not off."
              else EditState) ∧
      (NvidiaDLSSFrameGeneration_WhenCondition (some UGameSetting.NvidiaDLSSMode) E EditState ≠
          some EditState ↔
        (E.IsDLSSSupported = false ∨
          E.QueryDLSSSupport = UDLSSSupport.NotSupportedIncompatibleHardware ∨
          E.GetValue_ENvidiaDLSSMode UGameSetting.NvidiaDLSSMode = ENvidiaDLSSMode.Off)) ∧
      (NvidiaDLSSFrameGeneration_WhenCondition (some UGameSetting.NvidiaDLSSMode) E EditState =
          some EditState ↔
        (E.IsDLSSSupported = true ∧
          E.QueryDLSSSupport ≠ UDLSSSupport.NotSupportedIncompatibleHardware ∧
          E.GetValue_ENvidiaDLSSMode UGameSetting.NvidiaDLSSMode ≠ ENvidiaDLSSMode.Off)) ∧
      ({} : FGameSettingEditableState).Disable
          "Nvidia DLSS has to be supported, hardware compatible and not off." =
        { Verdict := EVerdict.Disabled,
          Reasons := ["Nvidia DLSS has to be supported, hardware compatible and not off."] } := by
  have hGather :
      NvidiaDLSSFrameGeneration_WhenCondition (some UGameSetting.NvidiaDLSSMode) E EditState =
        some (if E.IsDLSSSupported = false ∨
                  E.QueryDLSSSupport = UDLSSSupport.NotSupportedIncompatibleHardware ∨
                  E.GetValue_ENvidiaDLSSMode UGameSetting.NvidiaDLSSMode = ENvidiaDLSSMode.Off
              then EditState.Disable
                "Nvidia DLSS has to be supported, hardware compatible and not off."
              else EditState) := by
    unfold NvidiaDLSSFrameGeneration_WhenCondition
    by_cases hMode :
        E.GetValue_ENvidiaDLSSMode UGameSetting.NvidiaDLSSMode = ENvidiaDLSSMode.Off <;>
      by_cases hHardware :
        E.QueryDLSSSupport = UDLSSSupport.NotSupportedIncompatibleHardware <;>
      cases hSupported : E.IsDLSSSupported <;> simp [hMode, hHardware]
  have hChanged : ((if E.IsDLSSSupported = false ∨
        E.QueryDLSSSupport = UDLSSSupport.NotSupportedIncompatibleHardware ∨
        E.GetValue_ENvidiaDLSSMode UGameSetting.NvidiaDLSSMode = ENvidiaDLSSMode.Off
      then EditState.Disable "Nvidia DLSS has to be supported, hardware compatible and not off."
      else EditState) ≠ EditState ↔
      (E.IsDLSSSupported = false ∨
        E.QueryDLSSSupport = UDLSSSupport.NotSupportedIncompatibleHardware ∨
        E.GetValue_ENvidiaDLSSMode UGameSetting.NvidiaDLSSMode = ENvidiaDLSSMode.Off)) := by
    by_cases h : E.IsDLSSSupported = false ∨
        E.QueryDLSSSupport = UDLSSSupport.NotSupportedIncompatibleHardware ∨
        E.GetValue_ENvidiaDLSSMode UGameSetting.NvidiaDLSSMode = ENvidiaDLSSMode.Off
    · simp only [h, if_true, iff_true]
      exact Disable_ne_self _ _
    · simp only [h, if_false, iff_false]
      exact fun hne => hne rfl
  have hIff : (NvidiaDLSSFrameGeneration_WhenCondition (some UGameSetting.NvidiaDLSSMode) E
        EditState ≠ some EditState ↔
      (E.IsDLSSSupported = false ∨
        E.QueryDLSSSupport = UDLSSSupport.NotSupportedIncompatibleHardware ∨
        E.GetValue_ENvidiaDLSSMode UGameSetting.NvidiaDLSSMode = ENvidiaDLSSMode.Off)) := by
    rw [hGather]
    simpa using hChanged
  refine ⟨EditConditionsOf_NvidiaDLSSFrameGeneration E₀, hGather, hIff, ?_, by decide⟩
  rw [← not_iff_not]
  refine Iff.trans hIff ?_
  cases E.IsDLSSSupported <;> simp
  tauto

/-! ## The registered conditions, one by one -/

/-- The edit conditions registered by `InitializeVideoSettings`, in source order, each
with the setting it is attached to. -/
theorem InitializeVideoSettings_EditConditions_list (E : FEnvironment) :
    (InitializeVideoSettings E).EditConditions =
    [
      (UGameSetting.WindowMode,
        FWhenPlatformHasTrait.KillIfMissing TAG_Platform_Trait_SupportsWindowedMode
        "Platform does not support window mode"),
      (UGameSetting.Resolution,
        FWhenPlatformHasTrait.KillIfMissing TAG_Platform_Trait_SupportsWindowedMode
        "Platform does not support window mode"),
      (UGameSetting.Resolution,
        FGameSettingEditCondition.WhenCondition (Resolution_WhenCondition (some UGameSetting.WindowMode))),
      (UGameSetting.ColorBlindMode,
        FGameSettingEditCondition.WhenPlayingAsPrimaryPlayer),
      (UGameSetting.ColorBlindStrength,
        FGameSettingEditCondition.WhenPlayingAsPrimaryPlayer),
      (UGameSetting.Brightness,
        FGameSettingEditCondition.WhenPlayingAsPrimaryPlayer),
      (UGameSetting.Brightness,
        FWhenPlatformHasTrait.KillIfMissing TAG_Platform_Trait_NeedsBrightnessAdjustment
        "Platform does not require brightness adjustment."),
      (UGameSetting.SafeZone,
        FGameSettingEditCondition.WhenPlayingAsPrimaryPlayer),
      (UGameSetting.SafeZone,
        FGameSettingEditCondition.WhenCondition SafeZone_WhenCondition),
      (UGameSetting.FrameRateLimit_Mobile,
        FGameSettingEditCondition.FramePacingMode
        { DesiredMode := ELyraFramePacingMode.MobileStyle }),
      (UGameSetting.AutoSetQuality,
        FGameSettingEditCondition.WhenCondition AutoSetQuality_WhenCondition),
      (UGameSetting.GraphicsQualityPresets,
        FGameSettingEditCondition.FramePacingMode
        { DesiredMode := ELyraFramePacingMode.ConsoleStyle,
          MatchMode := EFramePacingEditCondition.DisableIf }),
      (UGameSetting.ResolutionScale,
        FGameSettingEditCondition.VideoQuality
        { DisableString := "Platform does not support 3D Resolution" }),
      (UGameSetting.GlobalIlluminationQuality,
        FGameSettingEditCondition.VideoQuality
        { DisableString := "Platform does not support GlobalIlluminationQuality" }),
      (UGameSetting.Shadows,
        FGameSettingEditCondition.VideoQuality
        { DisableString := "Platform does not support Shadows" }),
      (UGameSetting.AntiAliasing,
        FGameSettingEditCondition.VideoQuality
        { DisableString := "Platform does not support Anti-Aliasing" }),
      (UGameSetting.ViewDistance,
        FGameSettingEditCondition.VideoQuality
        { DisableString := "Platform does not support View Distance" }),
      (UGameSetting.TextureQuality,
        FGameSettingEditCondition.VideoQuality
        { DisableString := "Platform does not support Texture quality" }),
      (UGameSetting.VisualEffectQuality,
        FGameSettingEditCondition.VideoQuality
        { DisableString := "Platform does not support VisualEffectQuality" }),
      (UGameSetting.ReflectionQuality,
        FGameSettingEditCondition.VideoQuality
        { DisableString := "Platform does not support ReflectionQuality" }),
      (UGameSetting.PostProcessingQuality,
        FGameSettingEditCondition.VideoQuality
        { DisableString := "Platform does not support PostProcessingQuality" }),
      (UGameSetting.NvidiaDLSSMode,
        FGameSettingEditCondition.WhenPlayingAsPrimaryPlayer),
      (UGameSetting.NvidiaDLSSMode,
        FGameSettingEditCondition.WhenCondition NvidiaDLSSMode_WhenCondition),
      (UGameSetting.NvidiaDLSSSharpness,
        FGameSettingEditCondition.WhenPlayingAsPrimaryPlayer),
      (UGameSetting.NvidiaDLSSSharpness,
        FGameSettingEditCondition.WhenCondition (NvidiaDLSSSharpness_WhenCondition (some UGameSetting.NvidiaDLSSMode))),
      (UGameSetting.NvidiaDLSSFrameGeneration,
        FGameSettingEditCondition.WhenPlayingAsPrimaryPlayer),
      (UGameSetting.NvidiaDLSSFrameGeneration,
        FGameSettingEditCondition.WhenCondition (NvidiaDLSSFrameGeneration_WhenCondition (some UGameSetting.NvidiaDLSSMode))),
      (UGameSetting.NvidiaReflex,
        FGameSettingEditCondition.WhenPlayingAsPrimaryPlayer),
      (UGameSetting.NvidiaReflex,
        FGameSettingEditCondition.WhenCondition (NvidiaReflex_WhenCondition (some UGameSetting.NvidiaDLSSMode))),
      (UGameSetting.VerticalSync,
        FGameSettingEditCondition.FramePacingMode
        { DesiredMode := ELyraFramePacingMode.DesktopStyle }),
      (UGameSetting.VerticalSync,
        FGameSettingEditCondition.WhenCondition (VerticalSync_WhenCondition (some UGameSetting.WindowMode)))] := by
  rw [InitializeVideoSettings_EditConditions]
  rfl

theorem EVerdict.combine_Allowed (a : EVerdict) : a.combine EVerdict.Allowed = a := by
  cases a <;> rfl

theorem EVerdict.combine_comm (a b : EVerdict) : a.combine b = b.combine a := by
  cases a <;> cases b <;> rfl

theorem EVerdict.combine_assoc (a b c : EVerdict) :
    (a.combine b).combine c = a.combine (b.combine c) := by
  cases a <;> cases b <;> cases c <;> rfl

theorem EVerdict.combine_rank (a b : EVerdict) : (a.combine b).rank = max a.rank b.rank := by
  cases a <;> cases b <;> rfl

theorem EditConditionsOf_VerticalSync (E : FEnvironment) :
    (InitializeVideoSettings E).EditConditionsOf UGameSetting.VerticalSync =
      [FGameSettingEditCondition.FramePacingMode
          { DesiredMode := ELyraFramePacingMode.DesktopStyle },
        FGameSettingEditCondition.WhenCondition
          (VerticalSync_WhenCondition (some UGameSetting.WindowMode))] := by
  unfold FVideoSettingsTree.EditConditionsOf
  rw [InitializeVideoSettings_EditConditions]
  rfl

theorem EditConditionsOf_AutoSetQuality (E : FEnvironment) :
    (InitializeVideoSettings E).EditConditionsOf UGameSetting.AutoSetQuality =
      [FGameSettingEditCondition.WhenCondition AutoSetQuality_WhenCondition] := by
  unfold FVideoSettingsTree.EditConditionsOf
  rw [InitializeVideoSettings_EditConditions]
  rfl

theorem EditConditionsOf_DeviceProfileSuffix (E : FEnvironment) :
    (InitializeVideoSettings E).EditConditionsOf UGameSetting.DeviceProfileSuffix = [] := by
  unfold FVideoSettingsTree.EditConditionsOf
  rw [InitializeVideoSettings_EditConditions]
  rfl

/-! ## Vertical sync and the window mode -/

/-- C11: the lambda attached to `VerticalSync` (after the frame pacing condition,
capturing the `WindowMode` setting) disables the setting, with a non-empty reason, when
the value of `WindowMode` is not `Fullscreen`, and returns the edit state as it got it
when the value is `Fullscreen`: it changes the edit state exactly when the value is
`Windowed` or `WindowedFullscreen`. On a fresh edit state the disabled result is
Disabled with that one reason. -/
theorem VerticalSync_Disabled_iff_not_Fullscreen (E₀ E : FEnvironment)
    (EditState : FGameSettingEditableState) :
    (InitializeVideoSettings E₀).EditConditionsOf UGameSetting.VerticalSync =
        [FGameSettingEditCondition.FramePacingMode
            { DesiredMode := ELyraFramePacingMode.DesktopStyle },
          FGameSettingEditCondition.WhenCondition
            (VerticalSync_WhenCondition (some UGameSetting.WindowMode))] ∧
      VerticalSync_WhenCondition (some UGameSetting.WindowMode) E EditState =
        some (if E.GetValue_EWindowMode UGameSetting.WindowMode = EWindowMode.Fullscreen
              then EditState else EditState.Disable FullscreenNeededForVSync) ∧
      (VerticalSync_WhenCondition (some UGameSetting.WindowMode) E EditState ≠ some EditState ↔
        E.GetValue_EWindowMode UGameSetting.WindowMode ≠ EWindowMode.Fullscreen) ∧
      (E.GetValue_EWindowMode UGameSetting.WindowMode ≠ EWindowMode.Fullscreen ↔
        (E.GetValue_EWindowMode UGameSetting.WindowMode = EWindowMode.Windowed ∨
          E.GetValue_EWindowMode UGameSetting.WindowMode = EWindowMode.WindowedFullscreen)) ∧
      ({} : FGameSettingEditableState).Disable FullscreenNeededForVSync =
        { Verdict := EVerdict.Disabled, Reasons := [FullscreenNeededForVSync] } ∧
      FullscreenNeededForVSync ≠ "" := by
  have hGather : VerticalSync_WhenCondition (some UGameSetting.WindowMode) E EditState =
      some (if E.GetValue_EWindowMode UGameSetting.WindowMode = EWindowMode.Fullscreen
            then EditState else EditState.Disable FullscreenNeededForVSync) := by
    unfold VerticalSync_WhenCondition
    by_cases h : E.GetValue_EWindowMode UGameSetting.WindowMode = EWindowMode.Fullscreen <;>
      simp [h]
  refine ⟨EditConditionsOf_VerticalSync E₀, hGather, ?_, ?_, by decide, by decide⟩
  · rw [hGather]
    by_cases h : E.GetValue_EWindowMode UGameSetting.WindowMode = EWindowMode.Fullscreen
    · simp [h]
    · simpa [h] using Disable_ne_self EditState FullscreenNeededForVSync
  · cases E.GetValue_EWindowMode UGameSetting.WindowMode <;> simp

/-! ## A setting without edit conditions -/

/-- C15: `InitializeVideoSettings` attaches no edit condition to `DeviceProfileSuffix`,
and a setting without edit conditions evaluates to Allowed, with no reason, in every
environment: whatever the platform traits, the frame pacing mode, the DLSS support and
the values of the settings are. -/
theorem DeviceProfileSuffix_always_Allowed (E₀ E : FEnvironment) :
    (InitializeVideoSettings E₀).EditConditionsOf UGameSetting.DeviceProfileSuffix = [] ∧
      (InitializeVideoSettings E₀).Evaluate E UGameSetting.DeviceProfileSuffix =
        some { Verdict := EVerdict.Allowed, Reasons := [] } ∧
      (∀ (T : FVideoSettingsTree) (Setting : UGameSetting),
        T.EditConditionsOf Setting = [] →
          T.Evaluate E Setting = some { Verdict := EVerdict.Allowed, Reasons := [] }) := by
  have hGeneral : ∀ (T : FVideoSettingsTree) (Setting : UGameSetting),
      T.EditConditionsOf Setting = [] →
        T.Evaluate E Setting = some { Verdict := EVerdict.Allowed, Reasons := [] } := by
    intro T Setting hNone
    unfold FVideoSettingsTree.Evaluate
    rw [hNone]
    rfl
  exact ⟨EditConditionsOf_DeviceProfileSuffix E₀,
    hGeneral _ _ (EditConditionsOf_DeviceProfileSuffix E₀), hGeneral⟩

/-- Witness of C15: `DeviceProfileSuffix` in the tree built on the console-like
environment, evaluated there. -/
theorem DeviceProfileSuffix_Allowed_on_console :
    (InitializeVideoSettings ConsoleEnvironment).Evaluate ConsoleEnvironment
        UGameSetting.DeviceProfileSuffix =
      some { Verdict := EVerdict.Allowed, Reasons := [] } :=
  (DeviceProfileSuffix_always_Allowed ConsoleEnvironment ConsoleEnvironment).2.2 _ _
    (DeviceProfileSuffix_always_Allowed ConsoleEnvironment ConsoleEnvironment).1

/-! ## Number options -/

theorem AddNumberOptionsFrom_zero :
    AddNumberOptionsFrom 0 [] =
      [(0, "0"), (1, "1"), (2, "2"), (3, "3"), (4, "4"), (5, "5"), (6, "6"),
       (7, "7"), (8, "8"), (9, "9"), (10, "10")] := by
  simp [AddNumberOptionsFrom]
  decide

/-- C17: `NvidiaDLSSSharpness` and `ColorBlindStrength` each get exactly eleven options
from their loop: the values 0 to 10 in ascending order, each labelled with its own
number; so every value offered is within 0 to 10. -/
theorem Number_options_are_zero_to_ten :
    NvidiaDLSSSharpness_Options =
        [(0, "0"), (1, "1"), (2, "2"), (3, "3"), (4, "4"), (5, "5"), (6, "6"),
         (7, "7"), (8, "8"), (9, "9"), (10, "10")] ∧
      ColorBlindStrength_Options =
        [(0, "0"), (1, "1"), (2, "2"), (3, "3"), (4, "4"), (5, "5"), (6, "6"),
         (7, "7"), (8, "8"), (9, "9"), (10, "10")] ∧
      NvidiaDLSSSharpness_Options.length = 11 ∧
      ColorBlindStrength_Options.length = 11 ∧
      NvidiaDLSSSharpness_Options =
        (List.range 11).map (fun Index => ((Index : Int), toString Index)) ∧
      ColorBlindStrength_Options =
        (List.range 11).map (fun Index => ((Index : Int), toString Index)) ∧
      (∀ Option ∈ NvidiaDLSSSharpness_Options, 0 ≤ Option.1 ∧ Option.1 ≤ 10) := by
  have hSharpness : NvidiaDLSSSharpness_Options = _ := AddNumberOptionsFrom_zero
  have hStrength : ColorBlindStrength_Options = _ := AddNumberOptionsFrom_zero
  rw [hSharpness, hStrength]
  refine ⟨rfl, rfl, rfl, rfl, by decide, by decide, by decide⟩

/-! ## The auto-set quality action -/

/-- C18: the custom action of `AutoSetQuality` adds exactly one call on the local
settings: `ResetToMobileDeviceDefaults` when the frame pacing mode is `MobileStyle`, and
`RunAutoBenchmark(false)` for every other mode; it changes nothing else. So it never
does both, and it never runs the benchmark with `bImmediatelySaveState` true. -/
theorem AutoSetQuality_CustomAction_one_call (W : FWorld) :
    (AutoSetQuality_CustomAction W).LocalSettingsCalls =
        W.LocalSettingsCalls ++
          [if W.Environment.PlatformSettings.FramePacingMode = ELyraFramePacingMode.MobileStyle
           then ELocalSettingsCall.ResetToMobileDeviceDefaults
           else ELocalSettingsCall.RunAutoBenchmark false] ∧
      (AutoSetQuality_CustomAction W).Environment = W.Environment ∧
      ELocalSettingsCall.RunAutoBenchmark true ∉
        (AutoSetQuality_CustomAction { W with LocalSettingsCalls := [] }).LocalSettingsCalls ∧
      (ELocalSettingsCall.RunAutoBenchmark false ∈
          (AutoSetQuality_CustomAction { W with LocalSettingsCalls := [] }).LocalSettingsCalls ↔
        W.Environment.PlatformSettings.FramePacingMode ≠ ELyraFramePacingMode.MobileStyle) ∧
      (ELocalSettingsCall.ResetToMobileDeviceDefaults ∈
          (AutoSetQuality_CustomAction { W with LocalSettingsCalls := [] }).LocalSettingsCalls ↔
        W.Environment.PlatformSettings.FramePacingMode = ELyraFramePacingMode.MobileStyle) := by
  unfold AutoSetQuality_CustomAction
  by_cases h :
      W.Environment.PlatformSettings.FramePacingMode = ELyraFramePacingMode.MobileStyle <;>
    simp [h]

/-- C19: the lambda attached to `AutoSetQuality`, its only edit condition, kills the
action when the frame pacing mode is not `MobileStyle` and `CanRunAutoBenchmark()` is
false, and returns the edit state as it got it when the mode is `MobileStyle` or the
benchmark can run: it changes the edit state exactly in the first case, and the killed
state is Hidden. -/
theorem AutoSetQuality_Hidden_iff (E₀ E : FEnvironment) (EditState : FGameSettingEditableState) :
    (InitializeVideoSettings E₀).EditConditionsOf UGameSetting.AutoSetQuality =
        [FGameSettingEditCondition.WhenCondition AutoSetQuality_WhenCondition] ∧
      AutoSetQuality_WhenCondition E EditState =
        some (if E.PlatformSettings.FramePacingMode ≠ ELyraFramePacingMode.MobileStyle ∧
                  E.CanRunAutoBenchmark = false
              then EditState.Kill "Auto quality not supported" else EditState) ∧
      (AutoSetQuality_WhenCondition E EditState ≠ some EditState ↔
        (E.PlatformSettings.FramePacingMode ≠ ELyraFramePacingMode.MobileStyle ∧
          E.CanRunAutoBenchmark = false)) ∧
      (AutoSetQuality_WhenCondition E EditState = some EditState ↔
        (E.PlatformSettings.FramePacingMode = ELyraFramePacingMode.MobileStyle ∨
          E.CanRunAutoBenchmark = true)) ∧
      (EditState.Kill "Auto quality not supported").Verdict = EVerdict.Hidden := by
  have hGather : AutoSetQuality_WhenCondition E EditState =
      some (if E.PlatformSettings.FramePacingMode ≠ ELyraFramePacingMode.MobileStyle ∧
                E.CanRunAutoBenchmark = false
            then EditState.Kill "Auto quality not supported" else EditState) := by
    unfold AutoSetQuality_WhenCondition
    by_cases hMode : E.PlatformSettings.FramePacingMode = ELyraFramePacingMode.MobileStyle <;>
      cases hBenchmark : E.CanRunAutoBenchmark <;> simp [hMode]
  have hChanged : (AutoSetQuality_WhenCondition E EditState ≠ some EditState ↔
      (E.PlatformSettings.FramePacingMode ≠ ELyraFramePacingMode.MobileStyle ∧
        E.CanRunAutoBenchmark = false)) := by
    rw [hGather]
    by_cases h : E.PlatformSettings.FramePacingMode ≠ ELyraFramePacingMode.MobileStyle ∧
        E.CanRunAutoBenchmark = false
    · simpa [h] using Kill_ne_self EditState "Auto quality not supported"
    · simp [h]
  refine ⟨EditConditionsOf_AutoSetQuality E₀, hGather, hChanged, ?_, Kill_Verdict _ _⟩
  rw [← not_iff_not]
  refine Iff.trans hChanged ?_
  cases E.CanRunAutoBenchmark <;> simp

/-- C20: in every state in which the edit condition of `AutoSetQuality` does not hide the
action, if the custom action takes the branch that calls `RunAutoBenchmark`, then
`CanRunAutoBenchmark()` is true. -/
theorem AutoSetQuality_benchmark_only_when_supported (W : FWorld)
    (hNotHidden :
      (AutoSetQuality_WhenCondition W.Environment {}).map FGameSettingEditableState.Verdict ≠
        some EVerdict.Hidden)
    (hBenchmark :
      (AutoSetQuality_CustomAction W).LocalSettingsCalls =
        W.LocalSettingsCalls ++ [ELocalSettingsCall.RunAutoBenchmark false]) :
    W.Environment.CanRunAutoBenchmark = true := by
  have hMode :
      W.Environment.PlatformSettings.FramePacingMode ≠ ELyraFramePacingMode.MobileStyle := by
    intro hMobile
    simp [AutoSetQuality_CustomAction, hMobile] at hBenchmark
  cases hCan : W.Environment.CanRunAutoBenchmark
  · exfalso
    apply hNotHidden
    simp [AutoSetQuality_WhenCondition, hMode, hCan, Kill_Verdict]
  · rfl

/-- Witness of C20: the desktop environment, where the action runs the benchmark and the
benchmark can run. -/
theorem AutoSetQuality_benchmark_on_desktop :
    ({ Environment := DesktopEnvironment } : FWorld).Environment.CanRunAutoBenchmark = true :=
  AutoSetQuality_benchmark_only_when_supported { Environment := DesktopEnvironment }
    (by decide) (by decide)

/-! ## Ownership of the dependency targets -/

/-- The registrations in collections depend on the environment the tree is built in only
through the number of device-profile options that pass the refresh-rate filter. -/
theorem InitializeVideoSettings_Settings (E : FEnvironment) :
    (InitializeVideoSettings E).Settings =
      (if (DeviceProfileSuffix_DynamicOptions E).length > 1 then
        (InitializeVideoSettings TwoProfilesEnvironment).Settings
       else (InitializeVideoSettings DesktopEnvironment).Settings) := by
  by_cases h : (DeviceProfileSuffix_DynamicOptions E).length > 1
  · simp only [InitializeVideoSettings, h, if_true]
    rfl
  · simp only [InitializeVideoSettings, h, if_false]
    rfl

theorem InitializeVideoSettings_Root (E : FEnvironment) :
    (InitializeVideoSettings E).Root = some UGameSetting.VideoCollection := by
  by_cases h : (DeviceProfileSuffix_DynamicOptions E).length > 1
  · simp only [InitializeVideoSettings, h, if_true]
    rfl
  · simp only [InitializeVideoSettings, h, if_false]
    rfl

theorem Owns_congr (T T' : FVideoSettingsTree) (hSettings : T.Settings = T'.Settings)
    (hRoot : T.Root = T'.Root) (Setting : UGameSetting) : T.Owns Setting = T'.Owns Setting := by
  unfold FVideoSettingsTree.Owns
  rw [hSettings, hRoot]

set_option maxRecDepth 8000 in
theorem EditDependencyTargets_owned_Desktop :
    EditDependencyTargets.all (InitializeVideoSettings DesktopEnvironment).Owns = true ∧
      EditDependencyTargets.all (InitializeVideoSettings TwoProfilesEnvironment).Owns = true := by
  decide

set_option maxRecDepth 8000 in
theorem EditDependencyTargets_exact_Desktop :
    (InitializeVideoSettings DesktopEnvironment).EditDependencies.all
        (fun Call => Call.2.isSome && decide (Call.2 ∈ EditDependencyTargets.map some)) = true ∧
      EditDependencyTargets.all
        (fun Target => (InitializeVideoSettings DesktopEnvironment).EditDependencies.any
          (fun Call => decide (Call.2 = some Target))) = true := by
  decide

/-- C16: in the tree built by `InitializeVideoSettings`, in any environment (so whether
or not `DeviceProfileSuffix` is added to its collection), the root is the `Video`
collection; the argument of every `AddEditDependency` call is non-null and is one of
`WindowMode`, `AutoSetQuality`, `GraphicsQualityPresets`, `FrameRateLimit_Mobile`, the
nine granular quality settings and `NvidiaDLSSMode`; each of these fourteen is the
argument of such a call; and each of them is owned by the tree: it was added to a
collection that was added to the root. -/
theorem EditDependency_targets_non_null_and_owned (E : FEnvironment) :
    (InitializeVideoSettings E).Root = some UGameSetting.VideoCollection ∧
      (InitializeVideoSettings E).EditDependencies.all
        (fun Call => Call.2.isSome && decide (Call.2 ∈ EditDependencyTargets.map some)) = true ∧
      EditDependencyTargets.all
        (fun Target => (InitializeVideoSettings E).EditDependencies.any
          (fun Call => decide (Call.2 = some Target))) = true ∧
      EditDependencyTargets.all (InitializeVideoSettings E).Owns = true ∧
      EditDependencyTargets.length = 14 := by
  refine ⟨InitializeVideoSettings_Root E, ?_, ?_, ?_, rfl⟩
  · rw [InitializeVideoSettings_EditDependencies]
    exact EditDependencyTargets_exact_Desktop.1
  · rw [InitializeVideoSettings_EditDependencies]
    exact EditDependencyTargets_exact_Desktop.2
  · by_cases h : (DeviceProfileSuffix_DynamicOptions E).length > 1
    · have hOwns : (InitializeVideoSettings E).Owns =
          (InitializeVideoSettings TwoProfilesEnvironment).Owns := by
        funext Setting
        refine Owns_congr _ _ ?_ ?_ Setting
        · rw [InitializeVideoSettings_Settings, if_pos h]
        · rw [InitializeVideoSettings_Root, InitializeVideoSettings_Root]
      rw [hOwns]
      exact EditDependencyTargets_owned_Desktop.2
    · have hOwns : (InitializeVideoSettings E).Owns =
          (InitializeVideoSettings DesktopEnvironment).Owns := by
        funext Setting
        refine Owns_congr _ _ ?_ ?_ Setting
        · rw [InitializeVideoSettings_Settings, if_neg h]
        · rw [InitializeVideoSettings_Root, InitializeVideoSettings_Root]
      rw [hOwns]
      exact EditDependencyTargets_owned_Desktop.1

/-! ## Evaluation has no side effect -/

/-- Every condition registered by `InitializeVideoSettings` returns an edit state: no
captured pointer is null. -/
theorem registered_condition_returns (E₀ E : FEnvironment) :
    ∀ p ∈ (InitializeVideoSettings E₀).EditConditions,
      ∀ EditState : FGameSettingEditableState,
        ∃ Result, p.2.GatherEditState E EditState = some Result := by
  intro p hp EditState
  rw [InitializeVideoSettings_EditConditions_list] at hp
  simp only [List.mem_cons, List.mem_singleton, List.not_mem_nil, or_false] at hp
  repeat' (rcases hp with rfl | hp)
  all_goals
    simp only [FGameSettingEditCondition.GatherEditState, FWhenPlatformHasTrait.KillIfMissing,
      Resolution_WhenCondition, SafeZone_WhenCondition, AutoSetQuality_WhenCondition,
      NvidiaDLSSMode_WhenCondition, NvidiaDLSSSharpness_WhenCondition,
      NvidiaDLSSFrameGeneration_WhenCondition, NvidiaReflex_WhenCondition,
      VerticalSync_WhenCondition]
    first
      | exact ⟨_, rfl⟩
      | (split <;> exact ⟨_, rfl⟩)

theorem FramePacingMode_GatherEditState_Step_eq
    (Condition : FGameSettingEditCondition_FramePacingMode) (W : FWorld)
    (EditState : FGameSettingEditableState) :
    Condition.GatherEditState_Step W EditState =
      some (W, Condition.GatherEditState W.Environment EditState) := by
  unfold FGameSettingEditCondition_FramePacingMode.GatherEditState_Step
    FGameSettingEditCondition_FramePacingMode.GatherEditState FWorld.PlatformSettings_Get
  simp only []
  split <;> rfl

theorem VideoQuality_GatherEditState_Step_eq
    (Condition : FGameSettingEditCondition_VideoQuality) (W : FWorld)
    (EditState : FGameSettingEditableState) :
    Condition.GatherEditState_Step W EditState =
      some (W, Condition.GatherEditState W.Environment EditState) := by
  unfold FGameSettingEditCondition_VideoQuality.GatherEditState_Step
    FGameSettingEditCondition_VideoQuality.GatherEditState FWorld.PlatformSettings_Get
  simp only []
  split <;> rfl

/-- Each lambda of the file, run as a step with the pointer it captures, returns, hands
back the world it got, and leaves the edit state its embedding as a function leaves. -/
theorem FileWhenConditions_steps (W : FWorld) (EditState : FGameSettingEditableState) :
    ∀ p ∈ FileWhenConditions,
      ∃ Result, p.1 W EditState = some (W, Result) ∧
        p.2 W.Environment EditState = some Result := by
  intro p hp
  simp only [FileWhenConditions, List.mem_cons] at hp
  repeat' (rcases hp with rfl | hp)
  all_goals
    first
      | exact absurd hp (List.not_mem_nil _)
      | (simp only [Resolution_WhenCondition_Step, Resolution_WhenCondition,
           SafeZone_WhenCondition_Step, SafeZone_WhenCondition,
           AutoSetQuality_WhenCondition_Step, AutoSetQuality_WhenCondition,
           NvidiaDLSSMode_WhenCondition_Step, NvidiaDLSSMode_WhenCondition,
           NvidiaDLSSSharpness_WhenCondition_Step, NvidiaDLSSSharpness_WhenCondition,
           NvidiaDLSSFrameGeneration_WhenCondition_Step,
           NvidiaDLSSFrameGeneration_WhenCondition,
           NvidiaReflex_WhenCondition_Step, NvidiaReflex_WhenCondition,
           VerticalSync_WhenCondition_Step, VerticalSync_WhenCondition,
           FWorld.PlatformSettings_Get, FWorld.IsDLSSSupported, FWorld.QueryDLSSSupport,
           FWorld.CanRunAutoBenchmark, FWorld.TitleSafePaddingSizeIsZero,
           FWorld.GetValue_EWindowMode, FWorld.GetValue_ENvidiaDLSSMode]
         split <;> exact ⟨_, rfl, rfl⟩)

/-- Every lambda registered by `InitializeVideoSettings` is one of `FileWhenConditions`. -/
theorem registered_lambda_mem_FileWhenConditions (E₀ : FEnvironment) :
    ∀ p ∈ (InitializeVideoSettings E₀).EditConditions,
      ∀ Body : FWhenConditionBody, p.2 = FGameSettingEditCondition.WhenCondition Body →
        Body ∈ FileWhenConditions.map Prod.snd := by
  intro p hp Body hBody
  rw [InitializeVideoSettings_EditConditions_list] at hp
  simp only [List.mem_cons] at hp
  repeat' (rcases hp with rfl | hp)
  all_goals
    first
      | exact absurd hp (List.not_mem_nil _)
      | (cases hBody
         simp [FileWhenConditions])
      | cases hBody

/-- C14: run as steps on the world, which may hand back any world, `GatherEditState` of
the frame pacing condition, of the video quality condition and of every lambda of the
file returns the world it got: no value of a setting is written and no call is made on
the local settings; the edit state it leaves is the one of its embedding as a function
of the environment. Every lambda registered by `InitializeVideoSettings` is one of these
eight, with a non-null captured pointer. `FGameSettingEditCondition_VideoQuality::
SettingChanged`, for every setting and every change reason, changes the world: it adds
the one call `ApplyScalabilitySettings` and leaves what the queries return as it was. -/
theorem GatherEditState_leaves_world_unchanged (E₀ : FEnvironment) (W : FWorld)
    (EditState : FGameSettingEditableState) :
    (∀ (Condition : FGameSettingEditCondition_FramePacingMode),
        Condition.GatherEditState_Step W EditState =
          some (W, Condition.GatherEditState W.Environment EditState)) ∧
      (∀ (Condition : FGameSettingEditCondition_VideoQuality),
        Condition.GatherEditState_Step W EditState =
          some (W, Condition.GatherEditState W.Environment EditState)) ∧
      (∀ p ∈ FileWhenConditions,
        ∃ Result, p.1 W EditState = some (W, Result) ∧
          p.2 W.Environment EditState = some Result) ∧
      (∀ p ∈ (InitializeVideoSettings E₀).EditConditions,
        ∀ Body : FWhenConditionBody, p.2 = FGameSettingEditCondition.WhenCondition Body →
          Body ∈ FileWhenConditions.map Prod.snd) ∧
      FileWhenConditions.length = 8 ∧
      (∀ (Condition : FGameSettingEditCondition_VideoQuality) (Setting : UGameSetting)
          (Reason : EGameSettingChangeReason),
        (Condition.SettingChanged W Setting Reason).LocalSettingsCalls =
            W.LocalSettingsCalls ++ [ELocalSettingsCall.ApplyScalabilitySettings] ∧
          (Condition.SettingChanged W Setting Reason).Environment = W.Environment ∧
          (Condition.SettingChanged W Setting Reason).LocalSettingsCalls ≠
            W.LocalSettingsCalls) := by
  refine ⟨fun Condition => FramePacingMode_GatherEditState_Step_eq Condition W EditState,
    fun Condition => VideoQuality_GatherEditState_Step_eq Condition W EditState,
    FileWhenConditions_steps W EditState,
    registered_lambda_mem_FileWhenConditions E₀, rfl, ?_⟩
  intro Condition Setting Reason
  refine ⟨rfl, rfl, ?_⟩
  intro h
  have hLength := congrArg List.length h
  simp [FGameSettingEditCondition_VideoQuality.SettingChanged] at hLength

/-! ## Conditions read declared dependencies only -/

theorem mem_EditConditionsOf (T : FVideoSettingsTree) (Setting : UGameSetting)
    (Condition : FGameSettingEditCondition) (h : Condition ∈ T.EditConditionsOf Setting) :
    (Setting, Condition) ∈ T.EditConditions := by
  unfold FVideoSettingsTree.EditConditionsOf at h
  rw [List.mem_filterMap] at h
  obtain ⟨⟨S, C⟩, hMem, hEq⟩ := h
  by_cases hS : S = Setting
  · simp only [hS, if_true, Option.some.injEq] at hEq
    subst hS hEq
    exact hMem
  · simp [hS] at hEq

/-- C13: in the tree built by `InitializeVideoSettings`, `Resolution` and `VerticalSync`
declare an edit dependency on `WindowMode`, and `NvidiaDLSSSharpness`,
`NvidiaDLSSFrameGeneration` and `NvidiaReflex` declare one on `NvidiaDLSSMode`. For every
setting, if two assignments of values to the settings agree on the declared
dependencies of that setting, each of its edit conditions returns the same result under
both, the rest of the environment being the same: a condition reads the values of
declared dependencies only. -/
theorem Conditions_read_declared_dependencies_only (E₀ E : FEnvironment)
    (WindowModes WindowModes' : UGameSetting → EWindowMode)
    (DLSSModes DLSSModes' : UGameSetting → ENvidiaDLSSMode) (Setting : UGameSetting)
    (hAgree : ∀ Dependency, (InitializeVideoSettings E₀).EditDependsOn Setting Dependency →
      WindowModes Dependency = WindowModes' Dependency ∧
        DLSSModes Dependency = DLSSModes' Dependency) :
    (∀ Condition ∈ (InitializeVideoSettings E₀).EditConditionsOf Setting,
        ∀ EditState : FGameSettingEditableState,
          Condition.GatherEditState
              { E with GetValue_EWindowMode := WindowModes, GetValue_ENvidiaDLSSMode := DLSSModes }
              EditState =
            Condition.GatherEditState
              { E with GetValue_EWindowMode := WindowModes',
                       GetValue_ENvidiaDLSSMode := DLSSModes' }
              EditState) ∧
      (InitializeVideoSettings E₀).EditDependsOn UGameSetting.Resolution UGameSetting.WindowMode ∧
      (InitializeVideoSettings E₀).EditDependsOn UGameSetting.VerticalSync
        UGameSetting.WindowMode ∧
      (InitializeVideoSettings E₀).EditDependsOn UGameSetting.NvidiaDLSSSharpness
        UGameSetting.NvidiaDLSSMode ∧
      (InitializeVideoSettings E₀).EditDependsOn UGameSetting.NvidiaDLSSFrameGeneration
        UGameSetting.NvidiaDLSSMode ∧
      (InitializeVideoSettings E₀).EditDependsOn UGameSetting.NvidiaReflex
        UGameSetting.NvidiaDLSSMode := by
  refine ⟨?_, (EditDependsOn_iff_Desktop E₀ _ _).2 (by decide),
    (EditDependsOn_iff_Desktop E₀ _ _).2 (by decide),
    (EditDependsOn_iff_Desktop E₀ _ _).2 (by decide),
    (EditDependsOn_iff_Desktop E₀ _ _).2 (by decide),
    (EditDependsOn_iff_Desktop E₀ _ _).2 (by decide)⟩
  intro Condition hCondition EditState
  have hp := mem_EditConditionsOf _ _ _ hCondition
  rw [InitializeVideoSettings_EditConditions_list] at hp
  simp only [List.mem_cons, Prod.mk.injEq] at hp
  repeat' (rcases hp with ⟨rfl, rfl⟩ | hp)
  all_goals
    first
      | exact absurd hp (List.not_mem_nil _)
      | rfl
      | (have hValue := hAgree UGameSetting.WindowMode
            ((EditDependsOn_iff_Desktop E₀ _ _).2 (by decide))
         simp [FGameSettingEditCondition.GatherEditState, Resolution_WhenCondition,
           VerticalSync_WhenCondition, hValue.1])
      | (have hValue := hAgree UGameSetting.NvidiaDLSSMode
            ((EditDependsOn_iff_Desktop E₀ _ _).2 (by decide))
         simp [FGameSettingEditCondition.GatherEditState, NvidiaDLSSSharpness_WhenCondition,
           NvidiaDLSSFrameGeneration_WhenCondition, NvidiaReflex_WhenCondition, hValue.2])

/-- Witness of C13: the lambda of `Resolution` on the desktop environment, on a fresh edit
state, under two assignments of window modes that agree on `WindowMode` and differ on
every other setting. -/
theorem Resolution_condition_reads_WindowMode_only :
    (FGameSettingEditCondition.WhenCondition
        (Resolution_WhenCondition (some UGameSetting.WindowMode))).GatherEditState
        { DesktopEnvironment with
          GetValue_EWindowMode := fun _ => EWindowMode.WindowedFullscreen,
          GetValue_ENvidiaDLSSMode := fun _ => ENvidiaDLSSMode.Off }
        {} =
      (FGameSettingEditCondition.WhenCondition
        (Resolution_WhenCondition (some UGameSetting.WindowMode))).GatherEditState
        { DesktopEnvironment with
          GetValue_EWindowMode := fun S =>
            if S = UGameSetting.WindowMode then EWindowMode.WindowedFullscreen
            else EWindowMode.Windowed,
          GetValue_ENvidiaDLSSMode := fun _ => ENvidiaDLSSMode.Off }
        {} :=
  (Conditions_read_declared_dependencies_only DesktopEnvironment DesktopEnvironment
    (fun _ => EWindowMode.WindowedFullscreen)
    (fun S => if S = UGameSetting.WindowMode then EWindowMode.WindowedFullscreen
      else EWindowMode.Windowed)
    (fun _ => ENvidiaDLSSMode.Off) (fun _ => ENvidiaDLSSMode.Off) UGameSetting.Resolution
    (by decide)).1 _ (by rw [EditConditionsOf_Resolution]; simp) {}

/-! ## Order of evaluation -/

/-- Every condition registered by `InitializeVideoSettings`, the primary-player condition
apart (its class is outside the sources), combines its own verdict into the edit state. -/
theorem registered_condition_combines (E₀ E : FEnvironment) :
    ∀ p ∈ (InitializeVideoSettings E₀).EditConditions,
      p.2 ≠ FGameSettingEditCondition.WhenPlayingAsPrimaryPlayer → p.2.CombinesOwnVerdict E := by
  intro p hp hNotPrimary
  rw [InitializeVideoSettings_EditConditions_list] at hp
  simp only [List.mem_cons, List.mem_singleton, List.not_mem_nil, or_false] at hp
  repeat' (rcases hp with rfl | hp)
  all_goals
    first
      | exact absurd rfl hNotPrimary
      | (intro EditState
         simp only [FGameSettingEditCondition.OwnVerdict,
           FGameSettingEditCondition.GatherEditState, FWhenPlatformHasTrait.KillIfMissing,
           FWhenPlatformHasTrait.GatherEditState,
           FGameSettingEditCondition_FramePacingMode.GatherEditState,
           FGameSettingEditCondition_VideoQuality.GatherEditState,
           Resolution_WhenCondition, SafeZone_WhenCondition, AutoSetQuality_WhenCondition,
           NvidiaDLSSMode_WhenCondition, NvidiaDLSSSharpness_WhenCondition,
           NvidiaDLSSFrameGeneration_WhenCondition, NvidiaReflex_WhenCondition,
           VerticalSync_WhenCondition]
         split_ifs <;> refine ⟨_, rfl, ?_⟩ <;>
           simp [FGameSettingEditableState.Kill, FGameSettingEditableState.Disable,
             EVerdict.combine_Allowed, EVerdict.Allowed_combine])

theorem foldlM_GatherEditState_verdict (E : FEnvironment)
    (Conditions : List FGameSettingEditCondition)
    (hAll : ∀ Condition ∈ Conditions, Condition.CombinesOwnVerdict E) :
    ∀ EditState : FGameSettingEditableState,
      ∃ Result,
        Conditions.foldlM (fun EditState Condition => Condition.GatherEditState E EditState)
            EditState = some Result ∧
          Result.Verdict =
            (Conditions.map (fun Condition => Condition.OwnVerdict E)).foldl EVerdict.combine
              EditState.Verdict := by
  induction Conditions with
  | nil => intro EditState; exact ⟨EditState, rfl, rfl⟩
  | cons Condition Rest ih =>
    intro EditState
    obtain ⟨Next, hNext, hVerdict⟩ := hAll Condition (List.mem_cons_self _ _) EditState
    obtain ⟨Result, hResult, hFinal⟩ :=
      ih (fun C hC => hAll C (List.mem_cons_of_mem _ hC)) Next
    refine ⟨Result, ?_, ?_⟩
    · simp only [List.foldlM_cons, hNext]
      exact hResult
    · rw [hFinal, hVerdict]
      rfl

theorem EvaluateConditions_verdict (E : FEnvironment)
    (Conditions : List FGameSettingEditCondition)
    (hAll : ∀ Condition ∈ Conditions, Condition.CombinesOwnVerdict E) :
    (EvaluateConditions Conditions E).map FGameSettingEditableState.Verdict =
      some ((Conditions.map (fun Condition => Condition.OwnVerdict E)).foldl EVerdict.combine
        EVerdict.Allowed) := by
  obtain ⟨Result, hResult, hVerdict⟩ := foldlM_GatherEditState_verdict E Conditions hAll {}
  unfold EvaluateConditions
  rw [hResult, Option.map_some', hVerdict]

theorem EvaluateConditions_perm (E : FEnvironment)
    (Conditions Conditions' : List FGameSettingEditCondition)
    (hPerm : List.Perm Conditions' Conditions)
    (hAll : ∀ Condition ∈ Conditions, Condition.CombinesOwnVerdict E) :
    (EvaluateConditions Conditions' E).map FGameSettingEditableState.Verdict =
      (EvaluateConditions Conditions E).map FGameSettingEditableState.Verdict := by
  rw [EvaluateConditions_verdict E Conditions hAll,
    EvaluateConditions_verdict E Conditions' (fun C hC => hAll C (hPerm.mem_iff.1 hC))]
  congr 1
  refine List.Perm.foldl_eq' (hPerm.map _) ?_ EVerdict.Allowed
  intro x _ y _ z
  rw [EVerdict.combine_assoc, EVerdict.combine_comm x y, ← EVerdict.combine_assoc]

/-- C12: combining verdicts is commutative and associative, and the most restrictive of
the two wins: the combination has the higher rank in `Hidden > Disabled > Allowed`. For
`VerticalSync` and for `Resolution`, running the edit conditions in any order yields the
verdict of the evaluation, which is the combination of the verdicts of the conditions.
The same holds for every setting of the tree, provided the primary-player condition,
whose class is outside the sources, also combines its own verdict into the edit state. -/
theorem Combined_verdict_order_independent (E₀ E : FEnvironment) :
    (∀ a b : EVerdict, a.combine b = b.combine a) ∧
      (∀ a b c : EVerdict, (a.combine b).combine c = a.combine (b.combine c)) ∧
      (∀ a b : EVerdict, (a.combine b).rank = max a.rank b.rank) ∧
      (∀ Setting ∈ [UGameSetting.VerticalSync, UGameSetting.Resolution],
        ∀ Conditions : List FGameSettingEditCondition,
          List.Perm Conditions ((InitializeVideoSettings E₀).EditConditionsOf Setting) →
            (EvaluateConditions Conditions E).map FGameSettingEditableState.Verdict =
                ((InitializeVideoSettings E₀).Evaluate E Setting).map
                  FGameSettingEditableState.Verdict ∧
              ((InitializeVideoSettings E₀).Evaluate E Setting).map
                  FGameSettingEditableState.Verdict =
                some ((((InitializeVideoSettings E₀).EditConditionsOf Setting).map
                  (fun Condition => Condition.OwnVerdict E)).foldl EVerdict.combine
                    EVerdict.Allowed)) ∧
      (FGameSettingEditCondition.WhenPlayingAsPrimaryPlayer.CombinesOwnVerdict E →
        ∀ (Setting : UGameSetting) (Conditions : List FGameSettingEditCondition),
          List.Perm Conditions ((InitializeVideoSettings E₀).EditConditionsOf Setting) →
            (EvaluateConditions Conditions E).map FGameSettingEditableState.Verdict =
              ((InitializeVideoSettings E₀).Evaluate E Setting).map
                FGameSettingEditableState.Verdict) := by
  refine ⟨EVerdict.combine_comm, EVerdict.combine_assoc, EVerdict.combine_rank, ?_, ?_⟩
  · intro Setting hSetting Conditions hPerm
    have hAll : ∀ Condition ∈ (InitializeVideoSettings E₀).EditConditionsOf Setting,
        Condition.CombinesOwnVerdict E := by
      intro Condition hCondition
      refine registered_condition_combines E₀ E _ (mem_EditConditionsOf _ _ _ hCondition) ?_
      simp only [List.mem_cons, List.mem_singleton, List.not_mem_nil, or_false] at hSetting
      rcases hSetting with rfl | rfl
      · rw [EditConditionsOf_VerticalSync] at hCondition
        simp only [List.mem_cons, List.mem_singleton, List.not_mem_nil, or_false] at hCondition
        rcases hCondition with rfl | rfl <;> exact fun h => by cases h
      · rw [EditConditionsOf_Resolution] at hCondition
        simp only [List.mem_cons, List.mem_singleton, List.not_mem_nil, or_false] at hCondition
        rcases hCondition with rfl | rfl <;> exact fun h => by cases h
    exact ⟨EvaluateConditions_perm E _ _ hPerm hAll, EvaluateConditions_verdict E _ hAll⟩
  · intro hPrimary Setting Conditions hPerm
    refine EvaluateConditions_perm E _ _ hPerm ?_
    intro Condition hCondition
    by_cases hIs : Condition = FGameSettingEditCondition.WhenPlayingAsPrimaryPlayer
    · rw [hIs]
      exact hPrimary
    · exact registered_condition_combines E₀ E _ (mem_EditConditionsOf _ _ _ hCondition) hIs

/-- Witness of C12: `VerticalSync` on the desktop environment with `WindowMode` at
`Windowed`, its two conditions run in the other order. -/
theorem VerticalSync_verdict_in_other_order :
    (EvaluateConditions
        [FGameSettingEditCondition.WhenCondition
            (VerticalSync_WhenCondition (some UGameSetting.WindowMode)),
          FGameSettingEditCondition.FramePacingMode
            { DesiredMode := ELyraFramePacingMode.DesktopStyle }]
        { DesktopEnvironment with GetValue_EWindowMode := fun _ => EWindowMode.Windowed }).map
        FGameSettingEditableState.Verdict =
      ((InitializeVideoSettings DesktopEnvironment).Evaluate
        { DesktopEnvironment with GetValue_EWindowMode := fun _ => EWindowMode.Windowed }
        UGameSetting.VerticalSync).map FGameSettingEditableState.Verdict :=
  ((Combined_verdict_order_independent DesktopEnvironment
      { DesktopEnvironment with GetValue_EWindowMode := fun _ => EWindowMode.Windowed }).2.2.2.1
    UGameSetting.VerticalSync (by decide) _
    (by rw [EditConditionsOf_VerticalSync]; exact List.Perm.swap _ _ _)).1

/-! ## Device profile options -/

theorem foldl_filter_append {α β : Type} (p : α → Prop) [DecidablePred p] (g : α → β)
    (l : List α) :
    ∀ init : List β,
      l.foldl (fun acc x => if p x then acc ++ [g x] else acc) init =
        init ++ (l.filter (fun x => decide (p x))).map g := by
  induction l with
  | nil => intro init; simp
  | cons x xs ih =>
    intro init
    by_cases hx : p x
    · simp [List.foldl_cons, hx, ih, List.filter_cons]
    · simp [List.foldl_cons, hx, ih, List.filter_cons]

/-- The dynamic options are the variants that pass the refresh-rate filter, in order. -/
theorem DeviceProfileSuffix_DynamicOptions_eq (E : FEnvironment) :
    DeviceProfileSuffix_DynamicOptions E =
      (E.PlatformSettings.UserFacingDeviceProfileOptions.filter
        (fun Variant => decide (Variant.MinRefreshRate ≤ E.MaxRefreshRate))).map
        (fun Variant => (Variant.DeviceProfileSuffix, Variant.DisplayName)) := by
  unfold DeviceProfileSuffix_DynamicOptions
  have h := foldl_filter_append (fun Variant : FLyraQualityDeviceProfileVariant =>
      E.MaxRefreshRate ≥ Variant.MinRefreshRate)
    (fun Variant => (Variant.DeviceProfileSuffix, Variant.DisplayName))
    E.PlatformSettings.UserFacingDeviceProfileOptions []
  simpa using h

/-- C21: the dynamic options of `DeviceProfileSuffix` are the entries of
`UserFacingDeviceProfileOptions` whose `MinRefreshRate` is at most the platform's maximum
refresh rate, in their original order, each as the pair of its `DeviceProfileSuffix` and
its `DisplayName`. So every option offered comes from a variant that passes the filter,
and every variant that passes the filter is offered. -/
theorem DeviceProfileSuffix_options_are_filtered_variants (E : FEnvironment) :
    DeviceProfileSuffix_DynamicOptions E =
        (E.PlatformSettings.UserFacingDeviceProfileOptions.filter
          (fun Variant => decide (Variant.MinRefreshRate ≤ E.MaxRefreshRate))).map
          (fun Variant => (Variant.DeviceProfileSuffix, Variant.DisplayName)) ∧
      (∀ Option ∈ DeviceProfileSuffix_DynamicOptions E,
        ∃ Variant ∈ E.PlatformSettings.UserFacingDeviceProfileOptions,
          Variant.MinRefreshRate ≤ E.MaxRefreshRate ∧
            Option = (Variant.DeviceProfileSuffix, Variant.DisplayName)) ∧
      (∀ Variant ∈ E.PlatformSettings.UserFacingDeviceProfileOptions,
        Variant.MinRefreshRate ≤ E.MaxRefreshRate →
          (Variant.DeviceProfileSuffix, Variant.DisplayName) ∈
            DeviceProfileSuffix_DynamicOptions E) := by
  refine ⟨DeviceProfileSuffix_DynamicOptions_eq E, ?_, ?_⟩
  · intro Option hOption
    rw [DeviceProfileSuffix_DynamicOptions_eq, List.mem_map] at hOption
    obtain ⟨Variant, hVariant, rfl⟩ := hOption
    rw [List.mem_filter] at hVariant
    exact ⟨Variant, hVariant.1, by simpa using hVariant.2, rfl⟩
  · intro Variant hVariant hRate
    rw [DeviceProfileSuffix_DynamicOptions_eq, List.mem_map]
    exact ⟨Variant, List.mem_filter.2 ⟨hVariant, by simpa using hRate⟩, rfl⟩

/-- Witness of C21: of three variants asking for 0, 60 and 120 Hz on a platform whose
maximum refresh rate is 60, the first two are offered, in order, and the third is not. -/
theorem DeviceProfileSuffix_options_of_three_variants :
    DeviceProfileSuffix_DynamicOptions ThreeProfilesEnvironment =
      [("_Quality", "Quality"), ("_Performance", "Performance")] :=
  (DeviceProfileSuffix_options_are_filtered_variants ThreeProfilesEnvironment).1.trans
    (by decide)

/-! ## Registration of the device profile setting -/

set_option maxRecDepth 8000 in
theorem Settings_without_DeviceProfileSuffix_concrete :
    (InitializeVideoSettings DesktopEnvironment).Settings =
        [
         (UGameSetting.VideoCollection, UGameSetting.DisplayCollection),
         (UGameSetting.DisplayCollection, UGameSetting.WindowMode),
         (UGameSetting.DisplayCollection, UGameSetting.Resolution),
         (UGameSetting.VideoCollection, UGameSetting.GraphicsCollection),
         (UGameSetting.GraphicsCollection, UGameSetting.ColorBlindMode),
         (UGameSetting.GraphicsCollection, UGameSetting.ColorBlindStrength),
         (UGameSetting.GraphicsCollection, UGameSetting.Brightness),
         (UGameSetting.GraphicsCollection, UGameSetting.SafeZone),
         (UGameSetting.VideoCollection, UGameSetting.GraphicsQuality),
         (UGameSetting.GraphicsQuality, UGameSetting.FrameRateLimit_Mobile),
         (UGameSetting.GraphicsQuality, UGameSetting.AutoSetQuality),
         (UGameSetting.GraphicsQuality, UGameSetting.GraphicsQualityPresets),
         (UGameSetting.GraphicsQuality, UGameSetting.ResolutionScale),
         (UGameSetting.GraphicsQuality, UGameSetting.GlobalIlluminationQuality),
         (UGameSetting.GraphicsQuality, UGameSetting.Shadows),
         (UGameSetting.GraphicsQuality, UGameSetting.AntiAliasing),
         (UGameSetting.GraphicsQuality, UGameSetting.ViewDistance),
         (UGameSetting.GraphicsQuality, UGameSetting.TextureQuality),
         (UGameSetting.GraphicsQuality, UGameSetting.VisualEffectQuality),
         (UGameSetting.GraphicsQuality, UGameSetting.ReflectionQuality),
         (UGameSetting.GraphicsQuality, UGameSetting.PostProcessingQuality),
         (UGameSetting.VideoCollection, UGameSetting.NvidiaDLSS),
         (UGameSetting.NvidiaDLSS, UGameSetting.NvidiaDLSSMode),
         (UGameSetting.NvidiaDLSS, UGameSetting.NvidiaDLSSSharpness),
         (UGameSetting.NvidiaDLSS, UGameSetting.NvidiaDLSSFrameGeneration),
         (UGameSetting.NvidiaDLSS, UGameSetting.NvidiaReflex),
         (UGameSetting.VideoCollection, UGameSetting.AdvancedGraphics),
         (UGameSetting.AdvancedGraphics, UGameSetting.VerticalSync)] ∧
      (InitializeVideoSettings TwoProfilesEnvironment).Settings.filter
          (fun p => decide (p.2 ≠ UGameSetting.DeviceProfileSuffix)) =
        (InitializeVideoSettings DesktopEnvironment).Settings ∧
      (InitializeVideoSettings TwoProfilesEnvironment).Settings.filter
          (fun p => decide (p.2 = UGameSetting.DeviceProfileSuffix)) =
        [(UGameSetting.GraphicsQuality, UGameSetting.DeviceProfileSuffix)] ∧
      (InitializeVideoSettings TwoProfilesEnvironment).Owns UGameSetting.DeviceProfileSuffix =
        true := by
  decide

/-- C22: in the tree built by `InitializeVideoSettings`, `DeviceProfileSuffix` is added to
the `GraphicsQuality` collection exactly when more than one device-profile variant
passes the refresh-rate filter, and it is added to no other collection: with no or one
such variant it is not owned by the tree. The other registrations do not depend on the
environment: they are the same 28, in the same order, in every tree. -/
theorem DeviceProfileSuffix_registered_iff_several_options (E : FEnvironment) :
    ((UGameSetting.GraphicsQuality, UGameSetting.DeviceProfileSuffix) ∈
          (InitializeVideoSettings E).Settings ↔
        1 < (E.PlatformSettings.UserFacingDeviceProfileOptions.filter
          (fun Variant => decide (Variant.MinRefreshRate ≤ E.MaxRefreshRate))).length) ∧
      (∀ Collection : UGameSetting,
        (Collection, UGameSetting.DeviceProfileSuffix) ∈ (InitializeVideoSettings E).Settings →
          Collection = UGameSetting.GraphicsQuality) ∧
      ((InitializeVideoSettings E).Owns UGameSetting.DeviceProfileSuffix =
        decide (1 < (E.PlatformSettings.UserFacingDeviceProfileOptions.filter
          (fun Variant => decide (Variant.MinRefreshRate ≤ E.MaxRefreshRate))).length)) ∧
      (InitializeVideoSettings E).Settings.filter
          (fun p => decide (p.2 ≠ UGameSetting.DeviceProfileSuffix)) =
        [
         (UGameSetting.VideoCollection, UGameSetting.DisplayCollection),
         (UGameSetting.DisplayCollection, UGameSetting.WindowMode),
         (UGameSetting.DisplayCollection, UGameSetting.Resolution),
         (UGameSetting.VideoCollection, UGameSetting.GraphicsCollection),
         (UGameSetting.GraphicsCollection, UGameSetting.ColorBlindMode),
         (UGameSetting.GraphicsCollection, UGameSetting.ColorBlindStrength),
         (UGameSetting.GraphicsCollection, UGameSetting.Brightness),
         (UGameSetting.GraphicsCollection, UGameSetting.SafeZone),
         (UGameSetting.VideoCollection, UGameSetting.GraphicsQuality),
         (UGameSetting.GraphicsQuality, UGameSetting.FrameRateLimit_Mobile),
         (UGameSetting.GraphicsQuality, UGameSetting.AutoSetQuality),
         (UGameSetting.GraphicsQuality, UGameSetting.GraphicsQualityPresets),
         (UGameSetting.GraphicsQuality, UGameSetting.ResolutionScale),
         (UGameSetting.GraphicsQuality, UGameSetting.GlobalIlluminationQuality),
         (UGameSetting.GraphicsQuality, UGameSetting.Shadows),
         (UGameSetting.GraphicsQuality, UGameSetting.AntiAliasing),
         (UGameSetting.GraphicsQuality, UGameSetting.ViewDistance),
         (UGameSetting.GraphicsQuality, UGameSetting.TextureQuality),
         (UGameSetting.GraphicsQuality, UGameSetting.VisualEffectQuality),
         (UGameSetting.GraphicsQuality, UGameSetting.ReflectionQuality),
         (UGameSetting.GraphicsQuality, UGameSetting.PostProcessingQuality),
         (UGameSetting.VideoCollection, UGameSetting.NvidiaDLSS),
         (UGameSetting.NvidiaDLSS, UGameSetting.NvidiaDLSSMode),
         (UGameSetting.NvidiaDLSS, UGameSetting.NvidiaDLSSSharpness),
         (UGameSetting.NvidiaDLSS, UGameSetting.NvidiaDLSSFrameGeneration),
         (UGameSetting.NvidiaDLSS, UGameSetting.NvidiaReflex),
         (UGameSetting.VideoCollection, UGameSetting.AdvancedGraphics),
         (UGameSetting.AdvancedGraphics, UGameSetting.VerticalSync)] := by
  have hLength : (DeviceProfileSuffix_DynamicOptions E).length =
      (E.PlatformSettings.UserFacingDeviceProfileOptions.filter
        (fun Variant => decide (Variant.MinRefreshRate ≤ E.MaxRefreshRate))).length := by
    rw [DeviceProfileSuffix_DynamicOptions_eq, List.length_map]
  rw [← hLength]
  have hConcrete := Settings_without_DeviceProfileSuffix_concrete
  have hMemFilter : ∀ (L : List (UGameSetting × UGameSetting)) (Collection : UGameSetting),
      (Collection, UGameSetting.DeviceProfileSuffix) ∈ L ↔
        (Collection, UGameSetting.DeviceProfileSuffix) ∈
          L.filter (fun p => decide (p.2 = UGameSetting.DeviceProfileSuffix)) := by
    intro L Collection
    simp [List.mem_filter]
  have hOwns : ∀ T : FVideoSettingsTree,
      T.Settings = (InitializeVideoSettings E).Settings →
        T.Root = some UGameSetting.VideoCollection →
          (InitializeVideoSettings E).Owns UGameSetting.DeviceProfileSuffix =
            T.Owns UGameSetting.DeviceProfileSuffix := by
    intro T hSettings hRoot
    exact Owns_congr _ _ hSettings.symm ((InitializeVideoSettings_Root E).trans hRoot.symm) _
  by_cases h : (DeviceProfileSuffix_DynamicOptions E).length > 1
  · have hSettings : (InitializeVideoSettings E).Settings =
        (InitializeVideoSettings TwoProfilesEnvironment).Settings := by
      rw [InitializeVideoSettings_Settings, if_pos h]
    refine ⟨?_, ?_, ?_, ?_⟩
    · rw [hSettings, hMemFilter, hConcrete.2.2.1]
      simp [h]
    · intro Collection hMem
      rw [hSettings, hMemFilter, hConcrete.2.2.1] at hMem
      simpa using hMem
    · rw [hOwns _ hSettings.symm (InitializeVideoSettings_Root _), hConcrete.2.2.2]
      simp [h]
    · rw [hSettings, hConcrete.2.1, hConcrete.1]
  · have hSettings : (InitializeVideoSettings E).Settings =
        (InitializeVideoSettings DesktopEnvironment).Settings := by
      rw [InitializeVideoSettings_Settings, if_neg h]
    have hNone : ∀ Collection : UGameSetting,
        (Collection, UGameSetting.DeviceProfileSuffix) ∉
          (InitializeVideoSettings DesktopEnvironment).Settings := by
      rw [hConcrete.1]
      decide
    have hOwnsDesktop :
        (InitializeVideoSettings DesktopEnvironment).Owns UGameSetting.DeviceProfileSuffix =
          false := by
      decide
    refine ⟨?_, ?_, ?_, ?_⟩
    · rw [hSettings]
      simp only [gt_iff_lt] at h
      simp [h, hNone]
    · intro Collection hMem
      rw [hSettings] at hMem
      exact absurd hMem (hNone Collection)
    · rw [hOwns _ hSettings.symm (InitializeVideoSettings_Root _), hOwnsDesktop]
      simp only [gt_iff_lt] at h
      simp [h]
    · rw [hSettings, hConcrete.1]
      decide

/-! ## Frame rate options -/

end Lyra
